import Mathlib

/-!
Shallow embedding of the gratitude-app API gateway (the Express server in
the repository) and proofs of the specification claims about it.

Strings of the JavaScript program are modelled as `List Char`; JavaScript
values flowing through request bodies are modelled by the inductive `JsVal`
(with `undefined` for `undefined`).  The host builtins `JSON.parse` and
`JSON.stringify` and the OpenAI chat-completion capability are modelled as
explicit function parameters, since they are external to the repository.
-/

/-- Model of a JavaScript (JSON-ish) value, including `undefined`. -/
inductive JsVal : Type where
  | undefined : JsVal
  | null : JsVal
  | bool : Bool → JsVal
  | num : Int → JsVal
  | str : List Char → JsVal
  | arr : List JsVal → JsVal
  | obj : List (String × JsVal) → JsVal

/-- JavaScript truthiness of a value. -/
def truthy : JsVal → Bool
  | .undefined => false
  | .null => false
  | .bool b => b
  | .num n => decide (n ≠ 0)
  | .str s => decide (s ≠ [])
  | .arr _ => true
  | .obj _ => true

/-- The JavaScript `a || b` operator: `a` when truthy, else `b`. -/
def jsOr (a b : JsVal) : JsVal := if truthy a then a else b

/-- Optional-chained property access `v?.k`: `undefined` when `v` is not an
object or lacks the key. -/
def getF : JsVal → String → JsVal
  | .obj fs, k =>
    match fs.find? (fun p => p.1 == k) with
    | some p => p.2
    | none => .undefined
  | _, _ => .undefined

/-- Whitespace test used by `String.prototype.trim`. -/
def isWs (c : Char) : Bool := c.isWhitespace

/-- Drop leading whitespace. -/
def trimL (s : List Char) : List Char := s.dropWhile isWs

/-- Drop trailing whitespace. -/
def trimR (s : List Char) : List Char := (s.reverse.dropWhile isWs).reverse

/-- Model of `String.prototype.trim`. -/
def jsTrim (s : List Char) : List Char := trimR (trimL s)

/-- The first character, when there is one, is not whitespace. -/
def headOkB : List Char → Bool
  | [] => true
  | c :: _ => !isWs c

/-- The last character, when there is one, is not whitespace. -/
def lastOkB (s : List Char) : Bool := headOkB s.reverse

mutual

/-- Model of the JavaScript `String(v)` conversion. -/
def jsToString : JsVal → List Char
  | .undefined => ("undefined").toList
  | .null => ("null").toList
  | .bool true => ("true").toList
  | .bool false => ("false").toList
  | .num n => (toString n).toList
  | .str s => s
  | .arr xs => jsArrStr xs
  | .obj _ => ("[object Object]").toList

/-- `Array.prototype.toString`: elements joined by commas. -/
def jsArrStr : List JsVal → List Char
  | [] => []
  | [v] => jsElemStr v
  | v :: vs => jsElemStr v ++ [','] ++ jsArrStr vs

/-- Inside an array, `null` and `undefined` print as the empty string. -/
def jsElemStr : JsVal → List Char
  | .undefined => []
  | .null => []
  | v => jsToString v

end

/-- `sanitize(value, max)` from the gateway: empty string for `null` or
`undefined`, else `String(value).trim().slice(0, max)`.  The source's
default for `max` is 800; callers here always pass it explicitly. -/
def sanitize (value : JsVal) (max : Nat) : List Char :=
  match value with
  | .null => []
  | .undefined => []
  | v => (jsTrim (jsToString v)).take max

/-- `clipCollection(input, limit)` from the gateway: first `limit` elements
of an array, `[]` for a non-array.  The source's default limit is 20. -/
def clipCollection (input : JsVal) (limit : Nat) : List JsVal :=
  match input with
  | .arr xs => xs.take limit
  | _ => []

/-- `safeJsonParse(raw, fallback)` from the gateway.  The `JSON.parse`
builtin is modelled by the explicit `parse` parameter, with `none` standing
for a parse error being thrown; the `try`/`catch` returns `fallback` in
that case.  The source's default fallback is the empty object. -/
def safeJsonParse (parse : List Char → Option JsVal) (raw : List Char) (fallback : JsVal) : JsVal :=
  match parse raw with
  | some v => v
  | none => fallback

def kText : String := "text"
def kCreatedAt : String := "created_at"
def kCreatedAtCamel : String := "createdAt"
def kMood : String := "mood"
def kNote : String := "note"

/-- The per-element mapping of `normalizeEntries`. -/
def entryItem (item : JsVal) : JsVal :=
  .obj [(kText, .str (sanitize (jsOr (getF item kText) (.str [])) 500)),
        (kCreatedAt, jsOr (getF item kCreatedAt) (jsOr (getF item kCreatedAtCamel) .null))]

/-- `normalizeEntries(entries, limit)` from the gateway (default limit 20). -/
def normalizeEntries (entries : JsVal) (limit : Nat) : List JsVal :=
  (clipCollection entries limit).map entryItem

/-- The per-element mapping of `normalizeMoods`. -/
def moodItem (item : JsVal) : JsVal :=
  .obj [(kMood, .str (sanitize (jsOr (getF item kMood) (.str [])) 50)),
        (kNote, .str (sanitize (jsOr (getF item kNote) (.str [])) 240)),
        (kCreatedAt, jsOr (getF item kCreatedAt) .null)]

/-- `normalizeMoods(moods, limit)` from the gateway (default limit 20). -/
def normalizeMoods (moods : JsVal) (limit : Nat) : List JsVal :=
  (clipCollection moods limit).map moodItem

/-! ## The LLM capability and the two invokers -/

/-- Process-wide configuration fixed at startup: whether an OpenAI key was
supplied, and the model identifier. -/
structure Config where
  configured : Bool
  model : String

/-- A chat message sent to the LLM capability. -/
structure ChatMsg where
  role : String
  content : List Char
deriving DecidableEq

/-- Options merged into a chat-completion call.  `temperature` is in tenths
of the JavaScript float (the source only ever uses 0.4, 0.7 and 0.8). -/
structure ChatOptions where
  temperature : Option Nat
  max_tokens : Option Nat
  response_format : Option String
  model : Option String

/-- The request actually sent to the LLM capability after merging
defaults with per-call options. -/
structure LlmCall where
  model : String
  temperature : Nat
  max_tokens : Option Nat
  response_format : Option String
  messages : List ChatMsg

/-- The part of an OpenAI chat-completion response the gateway reads:
`response.choices?.[0]?.message?.content` and `response.usage`. -/
structure ChatResp where
  content : Option (List Char)
  usage : JsVal

/-- A thrown upstream error as observed by the handlers: its `message`
and its optional numeric `status` / `statusCode` fields. -/
structure JsErr where
  message : List Char
  status : Option Int
  statusCode : Option Int
deriving DecidableEq

/-- The external LLM capability, modelled as a function from the merged
call to either a thrown error or a response. -/
abbrev Oracle := LlmCall → Except JsErr ChatResp

/-- Model of the `JSON.parse` builtin: `none` stands for a thrown
`SyntaxError`. -/
abbrev ParseFn := List Char → Option JsVal

/-- Model of the `JSON.stringify` builtin on the object payloads the
gateway serializes. -/
abbrev StrFn := JsVal → List Char

def openAiMissingMsg : List Char :=
  ("OPENAI_API_KEY is not configured on the API gateway").toList

/-- `runChat(messages, options)` from the gateway: throws the fixed
configuration error when no client was constructed, else performs the
chat-completion call with defaults merged under the per-call options
(`messages` always from the call itself).  The second component is the
list of upstream calls performed. -/
def runChat (cfg : Config) (llm : Oracle) (messages : List ChatMsg) (options : ChatOptions) :
    Except JsErr ChatResp × List LlmCall :=
  if cfg.configured then
    let call : LlmCall :=
      ⟨options.model.getD cfg.model, options.temperature.getD 4,
       options.max_tokens, options.response_format, messages⟩
    (llm call, [call])
  else
    (.error ⟨openAiMissingMsg, none, none⟩, [])

def roleSystem : String := "system"
def roleUser : String := "user"
def roleAssistant : String := "assistant"
def jsonObjectDirective : String := "json_object"

/-- The options record accepted by `runJsonChat`. -/
structure JOpts where
  maxTokens : Option Nat
  temperature : Option Nat

/-- The result shape of `runJsonChat`. -/
structure JsonChatResult where
  json : JsVal
  usage : JsVal

/-- The two-message prompt `runJsonChat` builds: the system instruction and
the user payload, serialized to JSON text when not already a string. -/
def jsonChatMessages (stringify : StrFn) (systemPrompt : List Char) (userPayload : JsVal) :
    List ChatMsg :=
  [⟨roleSystem, systemPrompt⟩,
   ⟨roleUser, match userPayload with
     | .str s => s
     | v => stringify v⟩]

/-- The options `runJsonChat` passes to `runChat`: a JSON-output directive,
`options.maxTokens || 400` and `options.temperature ?? 0.4`. -/
def jsonChatOptions (options : JOpts) : ChatOptions :=
  ⟨some (options.temperature.getD 4),
   some (match options.maxTokens with
     | some k => if k = 0 then 400 else k
     | none => 400),
   some jsonObjectDirective,
   none⟩

def emptyObjText : List Char := ("\x7b\x7d").toList

/-- `response.choices?.[0]?.message?.content || "\x7b\x7d"`. -/
def contentOrEmptyObj (resp : ChatResp) : List Char :=
  match resp.content with
  | some s => if s.isEmpty then emptyObjText else s
  | none => emptyObjText

/-- `runJsonChat(systemPrompt, userPayload, options)` from the gateway. -/
def runJsonChat (cfg : Config) (llm : Oracle) (parse : ParseFn) (stringify : StrFn)
    (systemPrompt : List Char) (userPayload : JsVal) (options : JOpts) :
    Except JsErr JsonChatResult × List LlmCall :=
  let r := runChat cfg llm (jsonChatMessages stringify systemPrompt userPayload)
    (jsonChatOptions options)
  match r.1 with
  | .error e => (.error e, r.2)
  | .ok resp =>
    (.ok ⟨safeJsonParse parse (contentOrEmptyObj resp) (.obj []), jsOr resp.usage .null⟩, r.2)

/-! ## Endpoint handlers -/

/-- An HTTP response produced by a handler: status code and JSON body. -/
structure HttpResp where
  status : Int
  body : JsVal

def kOk : String := "ok"
def kError : String := "error"

def unconfiguredBody : JsVal := .obj [(kOk, .bool false), (kError, .str openAiMissingMsg)]

/-- The availability guard `ensureOpenAi(res)`: when the client was never
constructed it produces the fixed 503 response, else nothing. -/
def ensureOpenAi (cfg : Config) : Option HttpResp :=
  if cfg.configured then none else some ⟨503, unconfiguredBody⟩

/-- Second half of `err?.status || err?.statusCode || 502`. -/
def errStatusCodeOr (e : JsErr) : Int :=
  match e.statusCode with
  | some m => if m = 0 then 502 else m
  | none => 502

/-- The catch-block status computation `err?.status || err?.statusCode || 502`
(a numeric field equal to 0 is falsy and falls through). -/
def errStatus (e : JsErr) : Int :=
  match e.status with
  | some k => if k = 0 then errStatusCodeOr e else k
  | none => errStatusCodeOr e

/-- The catch-block message computation `err.message || fallback`. -/
def errMessageOr (e : JsErr) (fallback : List Char) : List Char :=
  if e.message.isEmpty then fallback else e.message

/-- The error response every AI handler's catch block sends. -/
def catchResp (e : JsErr) (fallback : List Char) : HttpResp :=
  ⟨errStatus e, .obj [(kError, .str (errMessageOr e fallback))]⟩

def kEntry : String := "entry"
def kStats : String := "stats"
def kGoals : String := "goals"
def kEntries : String := "entries"
def kMoods : String := "moods"
def kInsights : String := "insights"
def kUsage : String := "usage"
def kSummary : String := "summary"
def kReflections : String := "reflections"
def kAnomaly : String := "anomaly"
def kPatternKey : String := "pattern"
def kTranscript : String := "transcript"
def kShare : String := "share"
def kVoiceNote : String := "voice_note"
def kVoiceNoteText : String := "voice_note_text"
def kAudience : String := "audience"
def kConversation : String := "conversation"
def kTopic : String := "topic"
def kRole : String := "role"
def kContent : String := "content"
def kPromptKey : String := "prompt"
def kReply : String := "reply"
def kFocus : String := "focus"

def insightsValidationMsg : List Char :=
  ("Provide at least an entry, mood, or stats snapshot.").toList
def summaryValidationMsg : List Char :=
  ("Provide entries, moods, or stats for the summary.").toList
def goalsValidationMsg : List Char :=
  ("Provide at least one goal.").toList
def anomalyValidationMsg : List Char :=
  ("Provide recent entries or moods for analysis.").toList
def patternValidationMsg : List Char :=
  ("Provide entries to map life patterns.").toList
def transcriptValidationMsg : List Char :=
  ("Provide a voice note snippet to transcribe.").toList
def partnerValidationMsg : List Char :=
  ("Provide insights or a summary to craft a partner update.").toList

def insightsFallbackMsg : List Char := ("Unable to fetch AI insights").toList
def promptFallbackMsg : List Char := ("Unable to fetch AI prompt").toList
def summaryFallbackMsg : List Char := ("Unable to fetch AI summary").toList
def goalsFallbackMsg : List Char := ("Unable to fetch goal reflections").toList
def anomalyFallbackMsg : List Char := ("Unable to run anomaly detection").toList
def patternFallbackMsg : List Char := ("Unable to map patterns").toList
def transcriptFallbackMsg : List Char := ("Unable to transcribe note").toList
def partnerFallbackMsg : List Char := ("Unable to craft partner update").toList
def chatFallbackMsg : List Char := ("Unable to continue the mentor chat").toList

def insightsSystemText : List Char :=
  ("You are an empathetic AI mentor. Analyse the data and output JSON with keys primary_emotion, summary, reflection, action_item, risk_level (low|medium|high), and partner_share (short supportive sentence).").toList
def promptSystemText : List Char :=
  ("Create a single journaling prompt tailored to the user\x27s current mood and context. Keep it under 220 characters.").toList
def summarySystemText : List Char :=
  ("Create an uplifting weekly executive summary of the user\x27s emotional wellbeing. Respond with JSON keys: overview, wins (array), growth_edges (array), focus_theme, encouragement.").toList
def goalsSystemText : List Char :=
  ("Relate the gratitude reflection to the user\x27s life goals. Return JSON \x7b reflections: [\x7b goal, insight, micro_action \x7d] \x7d.").toList
def anomalySystemText : List Char :=
  ("Detect emotional anomalies or mental health risks. Return JSON \x7b risk_level, alerts: [string], recommendation \x7d.").toList
def patternSystemText : List Char :=
  ("Analyse gratitude entries to build a life pattern map. Return JSON \x7b themes: [string], triggers: [string], supportive_habits: [string] \x7d.").toList
def transcriptSystemText : List Char :=
  ("You clean up raw voice note text into a polished transcript. Return JSON \x7b transcript, emotions: [string], highlights: [string], action_item \x7d.").toList
def partnerSystemText : List Char :=
  ("Create a short, caring update that shares emotional status with a loved one without revealing raw journal text. Return JSON \x7b message \x7d.").toList
def chatSystemText : List Char :=
  ("You are a therapist-style AI mentor. Be empathetic, concise, and focus on actionable grounding techniques. Keep replies under 180 words.").toList

def promptDefaultText : List Char :=
  ("Take a mindful breath and describe one highlight from today.").toList
def chatDefaultReply : List Char :=
  ("Take a calming breath and notice one thing you appreciate in this moment.").toList

/-- Handler of `POST /ai/insights`. -/
def aiInsights (cfg : Config) (llm : Oracle) (parse : ParseFn) (stringify : StrFn)
    (body : JsVal) : HttpResp × List LlmCall :=
  match ensureOpenAi cfg with
  | some r => (r, [])
  | none =>
    let latestEntry := sanitize (getF body kEntry) 800
    let latestMood := jsOr (getF body kMood) .null
    let stats := jsOr (getF body kStats) .null
    let goals : List JsVal :=
      match getF body kGoals with
      | .arr gs => gs.map (fun g => .str (sanitize g 120))
      | _ => []
    if latestEntry.isEmpty && !truthy latestMood && !truthy stats then
      (⟨400, .obj [(kError, .str insightsValidationMsg)]⟩, [])
    else
      let userPayload : JsVal :=
        .obj [(kEntry, .str latestEntry), (kMood, latestMood), (kStats, stats),
              (kGoals, .arr goals)]
      let r := runJsonChat cfg llm parse stringify insightsSystemText userPayload ⟨some 350, none⟩
      match r.1 with
      | .ok j => (⟨200, .obj [(kInsights, j.json), (kUsage, j.usage)]⟩, r.2)
      | .error e => (catchResp e insightsFallbackMsg, r.2)

/-- Handler of `POST /ai/prompt`.  It never parses JSON nor serializes a
payload, but keeps the uniform handler signature. -/
def aiPrompt (cfg : Config) (llm : Oracle) (_parse : ParseFn) (_stringify : StrFn)
    (body : JsVal) : HttpResp × List LlmCall :=
  match ensureOpenAi cfg with
  | some r => (r, [])
  | none =>
    let focus := sanitize (getF body kFocus) 200
    let mood :=
      let m := sanitize (getF body kMood) 40
      if m.isEmpty then ("curious").toList else m
    let entry := sanitize (getF body kEntry) 400
    let userText :=
      ("Mood: ").toList ++ mood ++ ("\n").toList ++ ("Focus request: ").toList ++
      (if focus.isEmpty then ("balance and gratitude").toList else focus) ++
      ("\n").toList ++ ("Most recent entry: ").toList ++
      (if entry.isEmpty then ("none").toList else entry)
    let r := runChat cfg llm [⟨roleSystem, promptSystemText⟩, ⟨roleUser, userText⟩]
      ⟨some 8, some 100, none, none⟩
    match r.1 with
    | .ok resp =>
      let p := match resp.content with | some s => jsTrim s | none => []
      (⟨200, .obj [(kPromptKey, .str (if p.isEmpty then promptDefaultText else p)),
                   (kUsage, jsOr resp.usage .null)]⟩, r.2)
    | .error e => (catchResp e promptFallbackMsg, r.2)

/-- Handler of `POST /ai/summary`. -/
def aiSummary (cfg : Config) (llm : Oracle) (parse : ParseFn) (stringify : StrFn)
    (body : JsVal) : HttpResp × List LlmCall :=
  match ensureOpenAi cfg with
  | some r => (r, [])
  | none =>
    let entries := normalizeEntries (getF body kEntries) 20
    let moods := normalizeMoods (getF body kMoods) 20
    let stats := jsOr (getF body kStats) .null
    if entries.isEmpty && moods.isEmpty && !truthy stats then
      (⟨400, .obj [(kError, .str summaryValidationMsg)]⟩, [])
    else
      let userPayload : JsVal :=
        .obj [(kEntries, .arr entries), (kMoods, .arr moods), (kStats, stats)]
      let r := runJsonChat cfg llm parse stringify summarySystemText userPayload ⟨some 420, none⟩
      match r.1 with
      | .ok j => (⟨200, .obj [(kSummary, j.json), (kUsage, j.usage)]⟩, r.2)
      | .error e => (catchResp e summaryFallbackMsg, r.2)

/-- Handler of `POST /ai/goals`. -/
def aiGoals (cfg : Config) (llm : Oracle) (parse : ParseFn) (stringify : StrFn)
    (body : JsVal) : HttpResp × List LlmCall :=
  match ensureOpenAi cfg with
  | some r => (r, [])
  | none =>
    let goals :=
      (((clipCollection (getF body kGoals) 10).map (fun g => sanitize g 160)).filter
        (fun s => !s.isEmpty))
    let entry := sanitize (getF body kEntry) 400
    if goals.isEmpty then
      (⟨400, .obj [(kError, .str goalsValidationMsg)]⟩, [])
    else
      let userPayload : JsVal :=
        .obj [(kGoals, .arr (goals.map JsVal.str)), (kEntry, .str entry)]
      let r := runJsonChat cfg llm parse stringify goalsSystemText userPayload ⟨some 400, none⟩
      match r.1 with
      | .ok j =>
        (⟨200, .obj [(kReflections, jsOr (getF j.json kReflections) (.arr [])),
                     (kUsage, j.usage)]⟩, r.2)
      | .error e => (catchResp e goalsFallbackMsg, r.2)

/-- Handler of `POST /ai/anomaly`. -/
def aiAnomaly (cfg : Config) (llm : Oracle) (parse : ParseFn) (stringify : StrFn)
    (body : JsVal) : HttpResp × List LlmCall :=
  match ensureOpenAi cfg with
  | some r => (r, [])
  | none =>
    let entries := normalizeEntries (getF body kEntries) 30
    let moods := normalizeMoods (getF body kMoods) 30
    if entries.isEmpty && moods.isEmpty then
      (⟨400, .obj [(kError, .str anomalyValidationMsg)]⟩, [])
    else
      let userPayload : JsVal := .obj [(kEntries, .arr entries), (kMoods, .arr moods)]
      let r := runJsonChat cfg llm parse stringify anomalySystemText userPayload ⟨some 320, none⟩
      match r.1 with
      | .ok j => (⟨200, .obj [(kAnomaly, j.json), (kUsage, j.usage)]⟩, r.2)
      | .error e => (catchResp e anomalyFallbackMsg, r.2)

/-- Handler of `POST /ai/pattern`. -/
def aiPatternMap (cfg : Config) (llm : Oracle) (parse : ParseFn) (stringify : StrFn)
    (body : JsVal) : HttpResp × List LlmCall :=
  match ensureOpenAi cfg with
  | some r => (r, [])
  | none =>
    let entries := normalizeEntries (getF body kEntries) 40
    if entries.isEmpty then
      (⟨400, .obj [(kError, .str patternValidationMsg)]⟩, [])
    else
      let userPayload : JsVal := .obj [(kEntries, .arr entries)]
      let r := runJsonChat cfg llm parse stringify patternSystemText userPayload ⟨some 380, none⟩
      match r.1 with
      | .ok j => (⟨200, .obj [(kPatternKey, j.json), (kUsage, j.usage)]⟩, r.2)
      | .error e => (catchResp e patternFallbackMsg, r.2)

/-- Handler of `POST /ai/transcript`. -/
def aiTranscript (cfg : Config) (llm : Oracle) (parse : ParseFn) (stringify : StrFn)
    (body : JsVal) : HttpResp × List LlmCall :=
  match ensureOpenAi cfg with
  | some r => (r, [])
  | none =>
    let n1 := sanitize (getF body kVoiceNote) 1800
    let n2 := sanitize (getF body kVoiceNoteText) 1800
    let n3 := sanitize (getF body kNote) 1800
    let note := if n1.isEmpty then (if n2.isEmpty then n3 else n2) else n1
    if note.isEmpty then
      (⟨400, .obj [(kError, .str transcriptValidationMsg)]⟩, [])
    else
      let r := runJsonChat cfg llm parse stringify transcriptSystemText (.str note) ⟨some 320, none⟩
      match r.1 with
      | .ok j => (⟨200, .obj [(kTranscript, j.json), (kUsage, j.usage)]⟩, r.2)
      | .error e => (catchResp e transcriptFallbackMsg, r.2)

/-- Handler of `POST /ai/partner`. -/
def aiPartner (cfg : Config) (llm : Oracle) (parse : ParseFn) (stringify : StrFn)
    (body : JsVal) : HttpResp × List LlmCall :=
  match ensureOpenAi cfg with
  | some r => (r, [])
  | none =>
    let insights := jsOr (getF body kInsights) .null
    let summary := jsOr (getF body kSummary) .null
    let audience := sanitize (jsOr (getF body kAudience) (.str (("partner").toList))) 40
    if !truthy insights && !truthy summary then
      (⟨400, .obj [(kError, .str partnerValidationMsg)]⟩, [])
    else
      let userPayload : JsVal :=
        .obj [(kInsights, insights), (kSummary, summary), (kAudience, .str audience)]
      let r := runJsonChat cfg llm parse stringify partnerSystemText userPayload ⟨some 220, none⟩
      match r.1 with
      | .ok j => (⟨200, .obj [(kShare, j.json), (kUsage, j.usage)]⟩, r.2)
      | .error e => (catchResp e partnerFallbackMsg, r.2)

/-- `sanitize(req.body?.topic, 120) || "overall wellbeing"`. -/
def chatTopic (body : JsVal) : List Char :=
  let t := sanitize (getF body kTopic) 120
  if t.isEmpty then ("overall wellbeing").toList else t

/-- The topic-seeded opener used when the conversation history is empty. -/
def chatTopicMsgText (body : JsVal) : List Char :=
  ("I\x27d like to talk about ").toList ++ chatTopic body ++ (".").toList

/-- Values on which plain (non-optional) property access `v.k` throws a
TypeError. -/
def jsNullish : JsVal → Bool
  | .null => true
  | .undefined => true
  | _ => false

/-- Plain property access `v.k`, as the chat handler uses for `msg.role`,
`msg.content` and `msg.text`: `none` models the TypeError thrown when `v`
is null or undefined, else the property as for optional access. -/
def getFPlain (v : JsVal) (k : String) : Option JsVal :=
  if jsNullish v then none else some (getF v k)

/-- One step of the `history.forEach` push loop of the chat handler.  The
source reads `msg.role` and `msg.content || msg.text` with plain access,
so a null or undefined history element throws, modelled as `none`. -/
def chatPushStep (acc : List ChatMsg) (m : JsVal) : Option (List ChatMsg) :=
  match getFPlain m kRole, getFPlain m kContent, getFPlain m kText with
  | some r, some c, some t =>
    let role :=
      match r with
      | .str rr => if rr = (roleAssistant).toList then roleAssistant else roleUser
      | _ => roleUser
    let content := sanitize (jsOr c (jsOr t (.str []))) 1200
    some (if content.isEmpty then acc else acc ++ [⟨role, content⟩])
  | _, _, _ => none

/-- The `history.forEach` loop: the first throwing element aborts it. -/
def chatPushLoop : List ChatMsg → List JsVal → Option (List ChatMsg)
  | acc, [] => some acc
  | acc, m :: t =>
    match chatPushStep acc m with
    | some acc2 => chatPushLoop acc2 t
    | none => none

/-- The message list the chat handler builds before invoking `runChat`;
`none` models the TypeError a null/undefined history element throws. -/
def chatMessages (body : JsVal) : Option (List ChatMsg) :=
  let history : List JsVal :=
    match getF body kConversation with
    | .arr xs => xs
    | _ => []
  let base : List ChatMsg := [⟨roleSystem, chatSystemText⟩]
  if history.isEmpty then
    some (base ++ [⟨roleUser, chatTopicMsgText body⟩])
  else
    chatPushLoop base history

/-- Handler of `POST /ai/chat`.  It never parses JSON nor serializes a
payload, but keeps the uniform handler signature.  The first component is
`none` when the history loop throws a TypeError before the try block: the
handler then aborts with no response sent and no upstream call. -/
def aiChat (cfg : Config) (llm : Oracle) (_parse : ParseFn) (_stringify : StrFn)
    (body : JsVal) : Option HttpResp × List LlmCall :=
  match ensureOpenAi cfg with
  | some r => (some r, [])
  | none =>
    match chatMessages body with
    | none => (none, [])
    | some msgs =>
      let r := runChat cfg llm msgs ⟨some 7, some 360, none, none⟩
      match r.1 with
      | .ok resp =>
        let reply := match resp.content with | some s => jsTrim s | none => []
        (some ⟨200, .obj [(kReply, .str (if reply.isEmpty then chatDefaultReply else reply)),
                     (kUsage, jsOr resp.usage .null)]⟩, r.2)
      | .error e => (some (catchResp e chatFallbackMsg), r.2)

/-! ## Claim-worded reference definitions (used only to state claims) -/

/-- Worded from the claim: a mood element without trailing whitespace in
its sanitized string fields. -/
def moodOutTrimmed (o : JsVal) : Bool :=
  match getF o kMood, getF o kNote with
  | .str m, .str n => lastOkB m && lastOkB n
  | _, _ => false

/-- Worded from the claim: an entry element without trailing whitespace in
its sanitized text field. -/
def entryOutTrimmed (o : JsVal) : Bool :=
  match getF o kText with
  | .str t => lastOkB t
  | _ => false

/-- Worded from the amended claim: the timestamp of a normalized entry is
the `created_at` field when truthy, else the `createdAt` field when truthy,
else `null`. -/
def entryCreatedAtSpec (item : JsVal) : JsVal :=
  if truthy (getF item kCreatedAt) then getF item kCreatedAt
  else if truthy (getF item kCreatedAtCamel) then getF item kCreatedAtCamel
  else .null

/-- Worded from the amended claim: the timestamp of a normalized mood is
the `created_at` field when truthy, else `null` (no alternate casing). -/
def moodCreatedAtSpec (item : JsVal) : JsVal :=
  if truthy (getF item kCreatedAt) then getF item kCreatedAt else .null

/-- Worded from the claim: a history element is forwarded with role
`assistant` exactly when its role is the string `assistant` and `user`
otherwise, and is dropped when its sanitized content is empty. -/
def specHistMsg (m : JsVal) : Option ChatMsg :=
  let content := sanitize (jsOr (getF m kContent) (jsOr (getF m kText) (.str []))) 1200
  if content.isEmpty then none
  else some ⟨(match getF m kRole with
    | .str r => if r = (roleAssistant).toList then roleAssistant else roleUser
    | _ => roleUser), content⟩

/-- Worded from the claim: the messages after the system message are the
client history in order (with the mapping above), or a single topic-seeded
user message when the history is empty. -/
def specChatTail (body : JsVal) : List ChatMsg :=
  match getF body kConversation with
  | .arr xs => if xs.isEmpty then [⟨roleUser, chatTopicMsgText body⟩] else xs.filterMap specHistMsg
  | _ => [⟨roleUser, chatTopicMsgText body⟩]


/-- Worded from the claim: the upstream's status code when it supplies one
(numeric `status` or `statusCode` field), else 502. -/
def claimStatus (e : JsErr) : Int :=
  match e.status with
  | some k => k
  | none =>
    match e.statusCode with
    | some k => k
    | none => 502

/-! ## Helper lemmas -/

theorem jsToString_str (s : List Char) : jsToString (JsVal.str s) = s := by
  simp [jsToString]

theorem sanitize_str (s : List Char) (n : Nat) :
    sanitize (JsVal.str s) n = (jsTrim s).take n := by
  have h : sanitize (JsVal.str s) n = (jsTrim (jsToString (JsVal.str s))).take n := rfl
  rw [h, jsToString_str]

theorem headOkB_dropWhile (l : List Char) : headOkB (l.dropWhile isWs) = true := by
  induction l with
  | nil => rfl
  | cons c t ih =>
    rw [List.dropWhile_cons]
    cases h : isWs c with
    | true => simpa [h] using ih
    | false => simp [h, headOkB]

theorem trimL_headOk (s : List Char) : headOkB (trimL s) = true := headOkB_dropWhile s

theorem trimR_lastOk (s : List Char) : lastOkB (trimR s) = true := by
  unfold lastOkB trimR
  rw [List.reverse_reverse]
  exact headOkB_dropWhile _

theorem trimR_decomp (s : List Char) :
    s = trimR s ++ (s.reverse.takeWhile isWs).reverse := by
  have h : s.reverse.takeWhile isWs ++ s.reverse.dropWhile isWs = s.reverse :=
    List.takeWhile_append_dropWhile isWs s.reverse
  calc s = s.reverse.reverse := (List.reverse_reverse s).symm
  _ = (s.reverse.takeWhile isWs ++ s.reverse.dropWhile isWs).reverse := by rw [h]
  _ = (s.reverse.dropWhile isWs).reverse ++ (s.reverse.takeWhile isWs).reverse := by
      rw [List.reverse_append]
  _ = trimR s ++ (s.reverse.takeWhile isWs).reverse := rfl

theorem headOk_of_append (u w : List Char) (h : headOkB (u ++ w) = true) :
    headOkB u = true := by
  cases u with
  | nil => rfl
  | cons c t => simpa [headOkB] using h

theorem headOk_trimR (s : List Char) (h : headOkB s = true) :
    headOkB (trimR s) = true := by
  apply headOk_of_append (trimR s) (s.reverse.takeWhile isWs).reverse
  rw [← trimR_decomp s]
  exact h

theorem jsTrim_headOk (s : List Char) : headOkB (jsTrim s) = true :=
  headOk_trimR _ (trimL_headOk s)

theorem jsTrim_lastOk (s : List Char) : lastOkB (jsTrim s) = true :=
  trimR_lastOk _

theorem headOk_take (s : List Char) (n : Nat) (h : headOkB s = true) :
    headOkB (s.take n) = true := by
  cases s with
  | nil => simp [headOkB]
  | cons c t =>
    cases n with
    | zero => rfl
    | succ m => simpa [headOkB, List.take_succ_cons] using h

theorem trimL_of_headOk (s : List Char) (h : headOkB s = true) : trimL s = s := by
  cases s with
  | nil => rfl
  | cons c t =>
    unfold trimL
    rw [List.dropWhile_cons]
    have hc : isWs c = false := by simpa [headOkB] using h
    simp [hc]

theorem trimR_of_lastOk (s : List Char) (h : lastOkB s = true) : trimR s = s := by
  unfold trimR
  have h2 : s.reverse.dropWhile isWs = s.reverse := by
    have h3 := trimL_of_headOk s.reverse h
    simpa [trimL] using h3
  rw [h2, List.reverse_reverse]

theorem jsTrim_of_trimmed (s : List Char) (h1 : headOkB s = true)
    (h2 : lastOkB s = true) : jsTrim s = s := by
  unfold jsTrim
  rw [trimL_of_headOk s h1, trimR_of_lastOk s h2]

theorem take_len_le (l : List Char) (n : Nat) : (l.take n).length ≤ n := by
  rw [List.length_take]
  exact min_le_left _ _

theorem sanitize_cases (v : JsVal) (n : Nat) :
    sanitize v n = [] ∨ sanitize v n = (jsTrim (jsToString v)).take n := by
  cases v
  case null => exact Or.inl rfl
  case undefined => exact Or.inl rfl
  all_goals exact Or.inr rfl

theorem sanitize_length_le (v : JsVal) (n : Nat) : (sanitize v n).length ≤ n := by
  rcases sanitize_cases v n with h | h
  · rw [h]; exact Nat.zero_le n
  · rw [h]; exact take_len_le _ _

theorem sanitize_headOk (v : JsVal) (n : Nat) : headOkB (sanitize v n) = true := by
  rcases sanitize_cases v n with h | h
  · rw [h]; rfl
  · rw [h]; exact headOk_take _ _ (jsTrim_headOk _)

theorem sanitize_lastOk_of_short (v : JsVal) (n : Nat)
    (h : (jsTrim (jsToString v)).length ≤ n) : lastOkB (sanitize v n) = true := by
  rcases sanitize_cases v n with hc | hc
  · rw [hc]; rfl
  · rw [hc, List.take_of_length_le h]; exact jsTrim_lastOk _

theorem jsOr_of_truthy (a b : JsVal) (h : truthy a = true) : jsOr a b = a := by
  simp [jsOr, h]

theorem jsOr_of_falsy (a b : JsVal) (h : truthy a = false) : jsOr a b = b := by
  simp [jsOr, h]

theorem jsOr_str_empty (s : List Char) : jsOr (.str s) (.str []) = .str s := by
  cases s with
  | nil => rfl
  | cons c t => rfl

theorem jsOr_undef_null : jsOr JsVal.undefined JsVal.null = JsVal.null := rfl

theorem jsOr_null_chain1 (a : JsVal) : jsOr (jsOr a .null) .null = jsOr a .null := by
  cases h : truthy a with
  | true => rw [jsOr_of_truthy _ _ h, jsOr_of_truthy _ _ h]
  | false => rw [jsOr_of_falsy _ _ h]; rfl

theorem jsOr_null_chain2 (a b : JsVal) :
    jsOr (jsOr a (jsOr b .null)) .null = jsOr a (jsOr b .null) := by
  cases h : truthy a with
  | true => rw [jsOr_of_truthy _ _ h, jsOr_of_truthy _ _ h]
  | false => rw [jsOr_of_falsy _ _ h]; exact jsOr_null_chain1 b

theorem getF_entryItem_text (item : JsVal) :
    getF (entryItem item) kText = .str (sanitize (jsOr (getF item kText) (.str [])) 500) := rfl

theorem getF_entryItem_created (item : JsVal) :
    getF (entryItem item) kCreatedAt
      = jsOr (getF item kCreatedAt) (jsOr (getF item kCreatedAtCamel) .null) := rfl

theorem getF_entryItem_camel (item : JsVal) :
    getF (entryItem item) kCreatedAtCamel = .undefined := rfl

theorem getF_moodItem_mood (item : JsVal) :
    getF (moodItem item) kMood = .str (sanitize (jsOr (getF item kMood) (.str [])) 50) := rfl

theorem getF_moodItem_note (item : JsVal) :
    getF (moodItem item) kNote = .str (sanitize (jsOr (getF item kNote) (.str [])) 240) := rfl

theorem getF_moodItem_created (item : JsVal) :
    getF (moodItem item) kCreatedAt = jsOr (getF item kCreatedAt) .null := rfl

theorem sanitize_fix (v : JsVal) (cap : Nat) (h : lastOkB (sanitize v cap) = true) :
    sanitize (.str (sanitize v cap)) cap = sanitize v cap := by
  rw [sanitize_str,
    jsTrim_of_trimmed _ (sanitize_headOk v cap) h,
    List.take_of_length_le (sanitize_length_le v cap)]

theorem entryItem_idem (item : JsVal)
    (h : entryOutTrimmed (entryItem item) = true) :
    entryItem (entryItem item) = entryItem item := by
  have hlast : lastOkB (sanitize (jsOr (getF item kText) (.str [])) 500) = true := by
    unfold entryOutTrimmed at h
    rw [getF_entryItem_text] at h
    exact h
  have lhs : entryItem (entryItem item)
      = .obj [(kText, .str (sanitize (jsOr (getF (entryItem item) kText) (.str [])) 500)),
              (kCreatedAt, jsOr (getF (entryItem item) kCreatedAt)
                (jsOr (getF (entryItem item) kCreatedAtCamel) .null))] := rfl
  rw [lhs, getF_entryItem_text, getF_entryItem_created, getF_entryItem_camel,
    jsOr_str_empty, sanitize_fix _ _ hlast, jsOr_undef_null, jsOr_null_chain2]
  rfl

theorem moodItem_idem (item : JsVal)
    (h : moodOutTrimmed (moodItem item) = true) :
    moodItem (moodItem item) = moodItem item := by
  have h2 : lastOkB (sanitize (jsOr (getF item kMood) (.str [])) 50) = true
      ∧ lastOkB (sanitize (jsOr (getF item kNote) (.str [])) 240) = true := by
    unfold moodOutTrimmed at h
    rw [getF_moodItem_mood, getF_moodItem_note] at h
    simpa using h
  have lhs : moodItem (moodItem item)
      = .obj [(kMood, .str (sanitize (jsOr (getF (moodItem item) kMood) (.str [])) 50)),
              (kNote, .str (sanitize (jsOr (getF (moodItem item) kNote) (.str [])) 240)),
              (kCreatedAt, jsOr (getF (moodItem item) kCreatedAt) .null)] := rfl
  rw [lhs, getF_moodItem_mood, getF_moodItem_note, getF_moodItem_created,
    jsOr_str_empty, jsOr_str_empty, sanitize_fix _ _ h2.1, sanitize_fix _ _ h2.2,
    jsOr_null_chain1]
  rfl

theorem clipCollection_length_le (v : JsVal) (n : Nat) :
    (clipCollection v n).length ≤ n := by
  cases v
  case arr xs =>
    have h : clipCollection (.arr xs) n = xs.take n := rfl
    rw [h, List.length_take]
    exact min_le_left _ _
  all_goals exact Nat.zero_le n

theorem map_fixpoints {α : Type} (f : α → α) (l : List α)
    (h : ∀ x ∈ l, f x = x) : l.map f = l := by
  induction l with
  | nil => rfl
  | cons a t ih =>
    rw [List.map_cons, h a (by simp), ih (fun x hx => h x (by simp [hx]))]

theorem normalizeEntries_idem_aux (xs : JsVal) (n : Nat)
    (h : ∀ o ∈ normalizeEntries xs n, entryOutTrimmed o = true) :
    normalizeEntries (.arr (normalizeEntries xs n)) n = normalizeEntries xs n := by
  have hstep : normalizeEntries (.arr (normalizeEntries xs n)) n
      = (((clipCollection xs n).map entryItem).take n).map entryItem := rfl
  have hlen : ((clipCollection xs n).map entryItem).length ≤ n := by
    rw [List.length_map]
    exact clipCollection_length_le xs n
  rw [hstep, List.take_of_length_le hlen]
  have hfix : ∀ o ∈ (clipCollection xs n).map entryItem, entryItem o = o := by
    intro o ho
    obtain ⟨item, hmem, hitem⟩ := List.mem_map.mp ho
    rw [← hitem]
    exact entryItem_idem item (hitem ▸ h o ho)
  exact map_fixpoints entryItem _ hfix

theorem normalizeMoods_idem_aux (xs : JsVal) (n : Nat)
    (h : ∀ o ∈ normalizeMoods xs n, moodOutTrimmed o = true) :
    normalizeMoods (.arr (normalizeMoods xs n)) n = normalizeMoods xs n := by
  have hstep : normalizeMoods (.arr (normalizeMoods xs n)) n
      = (((clipCollection xs n).map moodItem).take n).map moodItem := rfl
  have hlen : ((clipCollection xs n).map moodItem).length ≤ n := by
    rw [List.length_map]
    exact clipCollection_length_le xs n
  rw [hstep, List.take_of_length_le hlen]
  have hfix : ∀ o ∈ (clipCollection xs n).map moodItem, moodItem o = o := by
    intro o ho
    obtain ⟨item, hmem, hitem⟩ := List.mem_map.mp ho
    rw [← hitem]
    exact moodItem_idem item (hitem ▸ h o ho)
  exact map_fixpoints moodItem _ hfix

theorem getFPlain_not_nullish (m : JsVal) (k : String) (h : jsNullish m = false) :
    getFPlain m k = some (getF m k) := by
  simp [getFPlain, h]

theorem chatPushStep_eq_spec (acc : List ChatMsg) (m : JsVal) (h : jsNullish m = false) :
    chatPushStep acc m = some (acc ++ (specHistMsg m).toList) := by
  unfold chatPushStep
  rw [getFPlain_not_nullish m kRole h, getFPlain_not_nullish m kContent h,
    getFPlain_not_nullish m kText h]
  unfold specHistMsg
  by_cases hc : (sanitize (jsOr (getF m kContent) (jsOr (getF m kText) (.str []))) 1200).isEmpty
  · simp [hc]
  · simp [hc]

theorem chatPushStep_nullish (acc : List ChatMsg) (m : JsVal) (h : jsNullish m = true) :
    chatPushStep acc m = none := by
  cases m
  case null => rfl
  case undefined => rfl
  all_goals simp [jsNullish] at h

theorem chatPushLoop_some (l : List JsVal) : ∀ (acc out : List ChatMsg),
    chatPushLoop acc l = some out → out = acc ++ l.filterMap specHistMsg := by
  induction l with
  | nil =>
    intro acc out h
    injection h with h2
    rw [← h2]
    simp
  | cons m t ih =>
    intro acc out h
    unfold chatPushLoop at h
    cases hn : jsNullish m with
    | true =>
      rw [chatPushStep_nullish acc m hn] at h
      cases h
    | false =>
      rw [chatPushStep_eq_spec acc m hn] at h
      have h2 := ih (acc ++ (specHistMsg m).toList) out h
      rw [h2, List.filterMap_cons]
      cases specHistMsg m <;> simp

theorem chatMessages_some (body : JsVal) (msgs : List ChatMsg)
    (h : chatMessages body = some msgs) :
    msgs = ⟨roleSystem, chatSystemText⟩ :: specChatTail body := by
  unfold chatMessages at h
  unfold specChatTail
  cases hv : getF body kConversation <;> rw [hv] at h
  case arr xs =>
    cases xs with
    | nil =>
      injection h with h2
      rw [← h2]
      rfl
    | cons a t =>
      simp only [List.isEmpty_cons, Bool.false_eq_true, if_false] at h
      have h2 := chatPushLoop_some (a :: t) [⟨roleSystem, chatSystemText⟩] msgs h
      rw [h2]
      simp
  all_goals
    injection h with h2
    rw [← h2]
    rfl

theorem aiChat_calls (cfg : Config) (llm : Oracle) (parse : ParseFn)
    (stringify : StrFn) (body : JsVal) (msgs : List ChatMsg)
    (hcfg : cfg.configured = true) (hm : chatMessages body = some msgs) :
    (aiChat cfg llm parse stringify body).2 = [⟨cfg.model, 7, some 360, none, msgs⟩] := by
  have hg : ensureOpenAi cfg = none := by simp [ensureOpenAi, hcfg]
  cases hllm : llm ⟨cfg.model, 7, some 360, none, msgs⟩ with
  | ok resp => simp [aiChat, hg, hm, runChat, hcfg, hllm]
  | error e => simp [aiChat, hg, hm, runChat, hcfg, hllm]

theorem chatRole_cases (x : JsVal) :
    (match x with
      | JsVal.str r => if r = (roleAssistant).toList then roleAssistant else roleUser
      | _ => roleUser) = roleAssistant ∨
    (match x with
      | JsVal.str r => if r = (roleAssistant).toList then roleAssistant else roleUser
      | _ => roleUser) = roleUser := by
  cases x
  case str r =>
    show (if r = (roleAssistant).toList then roleAssistant else roleUser) = roleAssistant ∨
      (if r = (roleAssistant).toList then roleAssistant else roleUser) = roleUser
    by_cases hr : r = (roleAssistant).toList
    · rw [if_pos hr]
      exact Or.inl rfl
    · rw [if_neg hr]
      exact Or.inr rfl
  all_goals exact Or.inr rfl

theorem specHistMsg_role (m : JsVal) (cm : ChatMsg) (h : specHistMsg m = some cm) :
    cm.role = roleAssistant ∨ cm.role = roleUser := by
  unfold specHistMsg at h
  by_cases hc : (sanitize (jsOr (getF m kContent) (jsOr (getF m kText) (.str []))) 1200).isEmpty
  · simp [hc] at h
  · simp only [hc, Bool.false_eq_true, if_false, Option.some.injEq] at h
    rw [← h]
    exact chatRole_cases (getF m kRole)

theorem specChatTail_no_system (body : JsVal) (cm : ChatMsg)
    (h : cm ∈ specChatTail body) : cm.role ≠ roleSystem := by
  have hcases : cm.role = roleAssistant ∨ cm.role = roleUser := by
    unfold specChatTail at h
    cases hv : getF body kConversation <;> rw [hv] at h
    case arr xs =>
      by_cases hx : xs.isEmpty
      · simp only [hx, if_true, List.mem_singleton] at h
        rw [h]
        exact Or.inr rfl
      · simp only [hx, Bool.false_eq_true, if_false] at h
        obtain ⟨m, _, hm⟩ := List.mem_filterMap.mp h
        exact specHistMsg_role m cm hm
    all_goals
      simp only [List.mem_singleton] at h
      rw [h]
      exact Or.inr rfl
  rcases hcases with h1 | h1 <;> rw [h1]
  · intro heq
    exact absurd heq (by decide)
  · intro heq
    exact absurd heq (by decide)

theorem errStatus_eq_claim (e : JsErr) (h1 : ∀ k, e.status = some k → 0 < k)
    (h2 : ∀ k, e.statusCode = some k → 0 < k) : errStatus e = claimStatus e := by
  unfold errStatus claimStatus errStatusCodeOr
  cases hs : e.status with
  | some k =>
    have hpos := h1 k hs
    have hk : ¬ (k = 0) := by omega
    simp [hk]
  | none =>
    cases hc : e.statusCode with
    | some m =>
      have hpos := h2 m hc
      have hm : ¬ (m = 0) := by omega
      simp [hm]
    | none => rfl

theorem runChat_const_error (cfg : Config) (e : JsErr) (msgs : List ChatMsg)
    (opts : ChatOptions) (hcfg : cfg.configured = true) :
    runChat cfg (fun _ => .error e) msgs opts
      = (.error e, [⟨opts.model.getD cfg.model, opts.temperature.getD 4,
          opts.max_tokens, opts.response_format, msgs⟩]) := by
  simp [runChat, hcfg]

theorem runJsonChat_const_error (cfg : Config) (e : JsErr) (parse : ParseFn)
    (stringify : StrFn) (sp : List Char) (payload : JsVal) (opts : JOpts)
    (hcfg : cfg.configured = true) :
    runJsonChat cfg (fun _ => .error e) parse stringify sp payload opts
      = (.error e, [⟨(jsonChatOptions opts).model.getD cfg.model,
          (jsonChatOptions opts).temperature.getD 4,
          (jsonChatOptions opts).max_tokens, (jsonChatOptions opts).response_format,
          jsonChatMessages stringify sp payload⟩]) := by
  unfold runJsonChat
  rw [runChat_const_error cfg e _ _ hcfg]

theorem sanitize_empty (n : Nat) : sanitize (JsVal.str []) n = [] := by
  rw [sanitize_str]
  simp [jsTrim, trimL, trimR]

theorem truthy_jsOr_null (a : JsVal) : truthy (jsOr a .null) = truthy a := by
  unfold jsOr
  cases h : truthy a with
  | true => simp [h]
  | false => simp [h, truthy]

/-! ## Claim theorems -/

/-- C7: `safeJsonParse` is total; for every model of the `JSON.parse`
builtin, every text and every fallback, it returns the parsed value when
the text is valid JSON (the parse succeeds) and the fallback otherwise. -/
theorem claim_c7_safeJsonParse (parse : ParseFn) (raw : List Char) (fallback : JsVal) :
    (∀ v, parse raw = some v → safeJsonParse parse raw fallback = v) ∧
    (parse raw = none → safeJsonParse parse raw fallback = fallback) := by
  constructor
  · intro v hv
    simp [safeJsonParse, hv]
  · intro hv
    simp [safeJsonParse, hv]

/-- C7 witness: `safeJsonParse` at concrete parses, texts and fallbacks. -/
theorem claim_c7_witness :
    safeJsonParse (fun _ => some (JsVal.num 1)) (("1").toList) (JsVal.obj []) = JsVal.num 1 ∧
    safeJsonParse (fun _ => none) (("nope").toList) (JsVal.obj []) = JsVal.obj [] :=
  ⟨(claim_c7_safeJsonParse (fun _ => some (JsVal.num 1)) (("1").toList) (JsVal.obj [])).1
      (JsVal.num 1) rfl,
   (claim_c7_safeJsonParse (fun _ => none) (("nope").toList) (JsVal.obj [])).2 rfl⟩

/-- C6 counterexample: `sanitize` trims before truncating, so truncation
at an interior space leaves trailing whitespace: sanitizing the string
`ab cd` with cap 3 yields `ab ` whose last character is whitespace,
refuting the no-trailing-whitespace part of the claim. -/
theorem claim_c6_counterexample :
    sanitize (JsVal.str (("ab cd").toList)) 3 = ("ab ").toList ∧
    lastOkB (("ab ").toList) = false := by
  constructor
  · rw [sanitize_str]
    decide
  · decide

/-- C6 amended: `sanitize(v, n)` never throws, returns the empty string on
null/absent input, and its result has length at most `n` and no leading
whitespace; it is the `n`-prefix of the trimmed string form of `v`, so it
also has no trailing whitespace whenever that trimmed form has length at
most `n` (that is, whenever no truncation occurred). -/
theorem claim_c6_amended (v : JsVal) (n : Nat) :
    ((v = JsVal.null ∨ v = JsVal.undefined) → sanitize v n = []) ∧
    (sanitize v n).length ≤ n ∧
    headOkB (sanitize v n) = true ∧
    ((jsTrim (jsToString v)).length ≤ n → lastOkB (sanitize v n) = true) := by
  refine ⟨?_, sanitize_length_le v n, sanitize_headOk v n, sanitize_lastOk_of_short v n⟩
  rintro (rfl | rfl) <;> rfl

/-- C6 amended witness at concrete inputs. -/
theorem claim_c6_amended_witness :
    sanitize JsVal.null 5 = [] ∧
    (sanitize (JsVal.str (("  hi  ").toList)) 5).length ≤ 5 ∧
    headOkB (sanitize (JsVal.str (("  hi  ").toList)) 5) = true ∧
    lastOkB (sanitize (JsVal.str (("  hi  ").toList)) 5) = true := by
  refine ⟨(claim_c6_amended JsVal.null 5).1 (Or.inl rfl),
    (claim_c6_amended (JsVal.str (("  hi  ").toList)) 5).2.1,
    (claim_c6_amended (JsVal.str (("  hi  ").toList)) 5).2.2.1,
    (claim_c6_amended (JsVal.str (("  hi  ").toList)) 5).2.2.2 ?_⟩
  rw [jsToString_str]
  decide

/-- C9 counterexample: `normalizeMoods` reads only the `created_at` key, so
an element carrying the timestamp under `createdAt` normalizes to a `null`
timestamp, and `normalizeEntries` uses truthiness rather than presence, so
a present-but-empty `created_at` loses to the `createdAt` alias; both
refute the claim as stated. -/
theorem claim_c9_counterexample :
    (normalizeMoods (JsVal.arr [JsVal.obj [(kCreatedAtCamel, JsVal.str (("2024").toList))]]) 20
      = [JsVal.obj [(kMood, JsVal.str []), (kNote, JsVal.str []), (kCreatedAt, JsVal.null)]]) ∧
    JsVal.null ≠ JsVal.str (("2024").toList) ∧
    (normalizeEntries (JsVal.arr [JsVal.obj [(kCreatedAt, JsVal.str []),
        (kCreatedAtCamel, JsVal.str (("x").toList))]]) 20
      = [JsVal.obj [(kText, JsVal.str []), (kCreatedAt, JsVal.str (("x").toList))]]) ∧
    JsVal.str (("x").toList) ≠ JsVal.str [] := by
  refine ⟨?_, ?_, ?_, ?_⟩
  · have e1 : normalizeMoods (JsVal.arr [JsVal.obj [(kCreatedAtCamel, JsVal.str (("2024").toList))]]) 20
        = [moodItem (JsVal.obj [(kCreatedAtCamel, JsVal.str (("2024").toList))])] := rfl
    have e2 : moodItem (JsVal.obj [(kCreatedAtCamel, JsVal.str (("2024").toList))])
        = JsVal.obj [(kMood, JsVal.str []), (kNote, JsVal.str []), (kCreatedAt, JsVal.null)] := by
      unfold moodItem
      rw [show jsOr (getF (JsVal.obj [(kCreatedAtCamel, JsVal.str (("2024").toList))]) kMood)
            (JsVal.str []) = JsVal.str [] from rfl,
          show jsOr (getF (JsVal.obj [(kCreatedAtCamel, JsVal.str (("2024").toList))]) kNote)
            (JsVal.str []) = JsVal.str [] from rfl,
          sanitize_empty, sanitize_empty]
      rfl
    rw [e1, e2]
  · intro h
    cases h
  · have e1 : normalizeEntries (JsVal.arr [JsVal.obj [(kCreatedAt, JsVal.str []),
          (kCreatedAtCamel, JsVal.str (("x").toList))]]) 20
        = [entryItem (JsVal.obj [(kCreatedAt, JsVal.str []),
            (kCreatedAtCamel, JsVal.str (("x").toList))])] := rfl
    have e2 : entryItem (JsVal.obj [(kCreatedAt, JsVal.str []),
          (kCreatedAtCamel, JsVal.str (("x").toList))])
        = JsVal.obj [(kText, JsVal.str []), (kCreatedAt, JsVal.str (("x").toList))] := by
      unfold entryItem
      rw [show jsOr (getF (JsVal.obj [(kCreatedAt, JsVal.str []),
            (kCreatedAtCamel, JsVal.str (("x").toList))]) kText) (JsVal.str [])
            = JsVal.str [] from rfl,
          sanitize_empty]
      rfl
    rw [e1, e2]
  · intro h
    injection h with h2
    exact absurd h2 (by decide)

/-- C9 amended: both normalizers substitute the empty string for missing
text/mood/note fields; `normalizeEntries` takes the timestamp from the
element's `created_at` key when truthy, else from its `createdAt` key when
truthy, else null (first truthy alias wins), while `normalizeMoods` reads
only the `created_at` key (truthy, else null) and has no alternate-casing
alias. -/
theorem claim_c9_amended (xs item : JsVal) (n : Nat) :
    normalizeEntries xs n = (clipCollection xs n).map entryItem ∧
    normalizeMoods xs n = (clipCollection xs n).map moodItem ∧
    getF (entryItem item) kCreatedAt = entryCreatedAtSpec item ∧
    getF (moodItem item) kCreatedAt = moodCreatedAtSpec item ∧
    (getF item kText = JsVal.undefined → getF (entryItem item) kText = JsVal.str []) ∧
    (getF item kMood = JsVal.undefined → getF (moodItem item) kMood = JsVal.str []) ∧
    (getF item kNote = JsVal.undefined → getF (moodItem item) kNote = JsVal.str []) := by
  refine ⟨rfl, rfl, rfl, rfl, ?_, ?_, ?_⟩
  · intro h
    rw [getF_entryItem_text, h, show jsOr JsVal.undefined (JsVal.str []) = JsVal.str [] from rfl,
      sanitize_empty]
  · intro h
    rw [getF_moodItem_mood, h, show jsOr JsVal.undefined (JsVal.str []) = JsVal.str [] from rfl,
      sanitize_empty]
  · intro h
    rw [getF_moodItem_note, h, show jsOr JsVal.undefined (JsVal.str []) = JsVal.str [] from rfl,
      sanitize_empty]

/-- C9 amended witness: a concrete element carrying only a `createdAt`
key has its text defaulted and its mood timestamp nulled. -/
theorem claim_c9_amended_witness :
    getF (entryItem (JsVal.obj [(kCreatedAtCamel, JsVal.str (("ts").toList))])) kText
      = JsVal.str [] ∧
    getF (moodItem (JsVal.obj [(kCreatedAtCamel, JsVal.str (("ts").toList))])) kCreatedAt
      = moodCreatedAtSpec (JsVal.obj [(kCreatedAtCamel, JsVal.str (("ts").toList))]) :=
  ⟨(claim_c9_amended JsVal.null (JsVal.obj [(kCreatedAtCamel, JsVal.str (("ts").toList))]) 20).2.2.2.2.1 rfl,
   (claim_c9_amended JsVal.null (JsVal.obj [(kCreatedAtCamel, JsVal.str (("ts").toList))]) 20).2.2.2.1⟩

theorem normalizeMoods_single_mood (s : List Char) :
    normalizeMoods (JsVal.arr [JsVal.obj [(kMood, JsVal.str s)]]) 20
      = [JsVal.obj [(kMood, JsVal.str ((jsTrim s).take 50)), (kNote, JsVal.str []),
          (kCreatedAt, JsVal.null)]] := by
  have e1 : normalizeMoods (JsVal.arr [JsVal.obj [(kMood, JsVal.str s)]]) 20
      = [moodItem (JsVal.obj [(kMood, JsVal.str s)])] := rfl
  rw [e1]
  unfold moodItem
  rw [show getF (JsVal.obj [(kMood, JsVal.str s)]) kMood = JsVal.str s from rfl,
      jsOr_str_empty, sanitize_str,
      show jsOr (getF (JsVal.obj [(kMood, JsVal.str s)]) kNote) (JsVal.str [])
        = JsVal.str [] from rfl,
      sanitize_empty]
  rfl

theorem normalizeMoods_norm_shape (s : List Char) :
    normalizeMoods (JsVal.arr [JsVal.obj [(kMood, JsVal.str s), (kNote, JsVal.str []),
        (kCreatedAt, JsVal.null)]]) 20
      = [JsVal.obj [(kMood, JsVal.str ((jsTrim s).take 50)), (kNote, JsVal.str []),
          (kCreatedAt, JsVal.null)]] := by
  have e1 : normalizeMoods (JsVal.arr [JsVal.obj [(kMood, JsVal.str s), (kNote, JsVal.str []),
        (kCreatedAt, JsVal.null)]]) 20
      = [moodItem (JsVal.obj [(kMood, JsVal.str s), (kNote, JsVal.str []),
          (kCreatedAt, JsVal.null)])] := rfl
  rw [e1]
  unfold moodItem
  rw [show getF (JsVal.obj [(kMood, JsVal.str s), (kNote, JsVal.str []),
        (kCreatedAt, JsVal.null)]) kMood = JsVal.str s from rfl,
      jsOr_str_empty, sanitize_str,
      show jsOr (getF (JsVal.obj [(kMood, JsVal.str s), (kNote, JsVal.str []),
        (kCreatedAt, JsVal.null)]) kNote) (JsVal.str []) = JsVal.str [] from rfl,
      sanitize_empty]
  rfl

/-- C8 counterexample: a 51-character mood whose 50-character truncation
ends in a space is trimmed again on the second pass, so applying
`normalizeMoods` to its own output is not a no-op. -/
theorem claim_c8_counterexample :
    normalizeMoods (JsVal.arr (normalizeMoods
        (JsVal.arr [JsVal.obj [(kMood, JsVal.str (List.replicate 49 'a' ++ (" b").toList))]]) 20)) 20
      ≠ normalizeMoods
        (JsVal.arr [JsVal.obj [(kMood, JsVal.str (List.replicate 49 'a' ++ (" b").toList))]]) 20 := by
  intro h
  rw [normalizeMoods_single_mood, normalizeMoods_norm_shape] at h
  have h2 := congrArg (fun l => match l with
    | JsVal.obj ((_, JsVal.str s) :: _) :: _ => s.length
    | _ => 0) h
  exact absurd h2 (by decide)

/-- C8 amended: applying a Normalizer to its own output is a no-op for
every input whose normalized string fields carry no trailing whitespace —
that is, whenever truncation did not cut a field at interior whitespace;
already-bounded, already-shaped records then pass through unchanged. -/
theorem claim_c8_amended (xs ys : JsVal) (n m : Nat)
    (hE : ∀ o ∈ normalizeEntries xs n, entryOutTrimmed o = true)
    (hM : ∀ o ∈ normalizeMoods ys m, moodOutTrimmed o = true) :
    normalizeEntries (JsVal.arr (normalizeEntries xs n)) n = normalizeEntries xs n ∧
    normalizeMoods (JsVal.arr (normalizeMoods ys m)) m = normalizeMoods ys m :=
  ⟨normalizeEntries_idem_aux xs n hE, normalizeMoods_idem_aux ys m hM⟩

/-- C8 amended witness: re-normalizing concrete already-normalized input. -/
theorem claim_c8_witness :
    normalizeEntries (JsVal.arr (normalizeEntries
        (JsVal.arr [JsVal.obj [(kText, JsVal.str (("hi").toList))]]) 20)) 20
      = normalizeEntries (JsVal.arr [JsVal.obj [(kText, JsVal.str (("hi").toList))]]) 20 ∧
    normalizeMoods (JsVal.arr (normalizeMoods JsVal.null 20)) 20
      = normalizeMoods JsVal.null 20 := by
  refine claim_c8_amended (JsVal.arr [JsVal.obj [(kText, JsVal.str (("hi").toList))]])
    JsVal.null 20 20 ?_ ?_
  · intro o ho
    rw [show normalizeEntries (JsVal.arr [JsVal.obj [(kText, JsVal.str (("hi").toList))]]) 20
        = [entryItem (JsVal.obj [(kText, JsVal.str (("hi").toList))])] from rfl] at ho
    rw [List.mem_singleton.mp ho]
    unfold entryOutTrimmed
    rw [getF_entryItem_text,
      show jsOr (getF (JsVal.obj [(kText, JsVal.str (("hi").toList))]) kText) (JsVal.str [])
        = JsVal.str (("hi").toList) from rfl, sanitize_str]
    decide
  · intro o ho
    rw [show normalizeMoods JsVal.null 20 = ([] : List JsVal) from rfl] at ho
    exact absurd ho (List.not_mem_nil o)

/-- C1: when the LLM capability was never configured, every AI endpoint
handler responds 503 with the fixed `ok:false` body and performs no
upstream call, and `runChat` itself fails with the configuration error
without attempting the call. -/
theorem claim_c1_unconfigured (cfg : Config) (llm : Oracle) (parse : ParseFn)
    (stringify : StrFn) (body : JsVal) (msgs : List ChatMsg) (opts : ChatOptions)
    (h : cfg.configured = false) :
    aiInsights cfg llm parse stringify body = (⟨503, unconfiguredBody⟩, []) ∧
    aiPrompt cfg llm parse stringify body = (⟨503, unconfiguredBody⟩, []) ∧
    aiSummary cfg llm parse stringify body = (⟨503, unconfiguredBody⟩, []) ∧
    aiGoals cfg llm parse stringify body = (⟨503, unconfiguredBody⟩, []) ∧
    aiAnomaly cfg llm parse stringify body = (⟨503, unconfiguredBody⟩, []) ∧
    aiPatternMap cfg llm parse stringify body = (⟨503, unconfiguredBody⟩, []) ∧
    aiTranscript cfg llm parse stringify body = (⟨503, unconfiguredBody⟩, []) ∧
    aiPartner cfg llm parse stringify body = (⟨503, unconfiguredBody⟩, []) ∧
    aiChat cfg llm parse stringify body = (some ⟨503, unconfiguredBody⟩, []) ∧
    runChat cfg llm msgs opts = (.error ⟨openAiMissingMsg, none, none⟩, []) := by
  have hg : ensureOpenAi cfg = some ⟨503, unconfiguredBody⟩ := by
    simp [ensureOpenAi, h]
  refine ⟨?_, ?_, ?_, ?_, ?_, ?_, ?_, ?_, ?_, ?_⟩
  · simp [aiInsights, hg]
  · simp [aiPrompt, hg]
  · simp [aiSummary, hg]
  · simp [aiGoals, hg]
  · simp [aiAnomaly, hg]
  · simp [aiPatternMap, hg]
  · simp [aiTranscript, hg]
  · simp [aiPartner, hg]
  · simp [aiChat, hg]
  · simp [runChat, h]

/-- C1 witness: a concrete unconfigured gateway and request. -/
theorem claim_c1_witness :
    aiInsights ⟨false, "gpt-4o-mini"⟩ (fun _ => Except.error ⟨[], none, none⟩)
        (fun _ => none) (fun _ => []) (JsVal.obj [(kEntry, JsVal.str (("hi").toList))])
      = (⟨503, unconfiguredBody⟩, []) ∧
    runChat ⟨false, "gpt-4o-mini"⟩ (fun _ => Except.error ⟨[], none, none⟩) [] ⟨none, none, none, none⟩
      = (.error ⟨openAiMissingMsg, none, none⟩, []) := by
  have hall := claim_c1_unconfigured ⟨false, "gpt-4o-mini"⟩
    (fun _ => Except.error ⟨[], none, none⟩) (fun _ => none) (fun _ => [])
    (JsVal.obj [(kEntry, JsVal.str (("hi").toList))]) [] ⟨none, none, none, none⟩ rfl
  exact ⟨hall.1, hall.2.2.2.2.2.2.2.2.2⟩

/-- C4: a failure of the underlying `runChat` propagates out of
`runJsonChat` as-is; on success `runJsonChat` returns a record whose
`json` is the parsed reply content when that content is valid JSON and the
empty object otherwise (absent or empty content parses the literal empty
object text; a malformed reply is never a hard error), and whose `usage`
is the reply's usage object, or null when it is absent. -/
theorem claim_c4_runJsonChat (cfg : Config) (llm : Oracle) (parse : ParseFn)
    (stringify : StrFn) (sp : List Char) (payload : JsVal) (opts : JOpts)
    (hp : parse emptyObjText = some (JsVal.obj [])) :
    (∀ e, (runChat cfg llm (jsonChatMessages stringify sp payload) (jsonChatOptions opts)).1
        = .error e →
      (runJsonChat cfg llm parse stringify sp payload opts).1 = .error e) ∧
    (∀ resp, (runChat cfg llm (jsonChatMessages stringify sp payload) (jsonChatOptions opts)).1
        = .ok resp →
      ∃ j u, (runJsonChat cfg llm parse stringify sp payload opts).1 = .ok ⟨j, u⟩ ∧
        (∀ s v, resp.content = some s → s ≠ [] → parse s = some v → j = v) ∧
        (∀ s, resp.content = some s → s ≠ [] → parse s = none → j = JsVal.obj []) ∧
        ((resp.content = none ∨ resp.content = some []) → j = JsVal.obj []) ∧
        ((∃ fs, resp.usage = JsVal.obj fs) → u = resp.usage) ∧
        ((resp.usage = JsVal.undefined ∨ resp.usage = JsVal.null) → u = JsVal.null)) := by
  constructor
  · intro e he
    simp [runJsonChat, he]
  · intro resp hr
    refine ⟨safeJsonParse parse (contentOrEmptyObj resp) (JsVal.obj []),
      jsOr resp.usage JsVal.null, ?_, ?_, ?_, ?_, ?_, ?_⟩
    · simp [runJsonChat, hr]
    · intro s v hs hne hparse
      have hemp : s.isEmpty = false := by
        cases s with
        | nil => exact absurd rfl hne
        | cons a t => rfl
      have hc : contentOrEmptyObj resp = s := by
        simp [contentOrEmptyObj, hs, hemp]
      rw [hc]
      simp [safeJsonParse, hparse]
    · intro s hs hne hparse
      have hemp : s.isEmpty = false := by
        cases s with
        | nil => exact absurd rfl hne
        | cons a t => rfl
      have hc : contentOrEmptyObj resp = s := by
        simp [contentOrEmptyObj, hs, hemp]
      rw [hc]
      simp [safeJsonParse, hparse]
    · intro hcase
      have hc : contentOrEmptyObj resp = emptyObjText := by
        rcases hcase with hn | he
        · simp [contentOrEmptyObj, hn]
        · simp [contentOrEmptyObj, he]
      rw [hc]
      simp [safeJsonParse, hp]
    · rintro ⟨fs, hfs⟩
      rw [hfs]
      rfl
    · rintro (hu | hu) <;> rw [hu] <;> rfl

/-- C4 witness: a concrete successful call whose reply parses as JSON. -/
theorem claim_c4_witness :
    (runJsonChat ⟨true, "m"⟩ (fun _ => Except.ok (⟨some (("7").toList), JsVal.null⟩ : ChatResp))
        (fun s => if s = ("7").toList then some (JsVal.num 7) else some (JsVal.obj []))
        (fun _ => ([] : List Char)) [] (JsVal.obj []) ⟨some 350, none⟩).1
      = Except.ok ⟨JsVal.num 7, JsVal.null⟩ := by
  obtain ⟨j, u, hju, h1, _h2, _h3, _h4, h5⟩ :=
    (claim_c4_runJsonChat ⟨true, "m"⟩
      (fun _ => Except.ok (⟨some (("7").toList), JsVal.null⟩ : ChatResp))
      (fun s => if s = ("7").toList then some (JsVal.num 7) else some (JsVal.obj []))
      (fun _ => ([] : List Char)) [] (JsVal.obj []) ⟨some 350, none⟩ (by rfl)).2
      ⟨some (("7").toList), JsVal.null⟩ rfl
  have hj : j = JsVal.num 7 := h1 (("7").toList) (JsVal.num 7) rfl (by decide) (by rfl)
  have hu : u = JsVal.null := h5 (Or.inr rfl)
  rw [hj, hu] at hju
  exact hju

theorem runJsonChat_const_ok (cfg : Config) (resp : ChatResp) (parse : ParseFn)
    (stringify : StrFn) (sp : List Char) (payload : JsVal) (opts : JOpts)
    (hcfg : cfg.configured = true) :
    (runJsonChat cfg (fun _ => .ok resp) parse stringify sp payload opts).1
      = .ok ⟨safeJsonParse parse (contentOrEmptyObj resp) (JsVal.obj []),
          jsOr resp.usage .null⟩ := by
  simp [runJsonChat, runChat, hcfg]

/-- C5 counterexample: when the model replies with the empty JSON object,
the insights endpoint returns 200 with `insights` equal to the empty
object — the `primary_emotion` free-text field is absent and no fallback
is substituted — and the goals endpoint substitutes the empty array, not a
non-empty value, for the missing `reflections` field; both refute the
claim for the JSON-shaped endpoints. -/
theorem claim_c5_counterexample :
    ((aiInsights ⟨true, "m"⟩
        (fun _ => Except.ok (⟨some emptyObjText, JsVal.null⟩ : ChatResp))
        (fun s => if s = emptyObjText then some (JsVal.obj []) else none)
        (fun _ => ([] : List Char))
        (JsVal.obj [(kMood, JsVal.bool true)])).1.status = 200) ∧
    getF (getF ((aiInsights ⟨true, "m"⟩
        (fun _ => Except.ok (⟨some emptyObjText, JsVal.null⟩ : ChatResp))
        (fun s => if s = emptyObjText then some (JsVal.obj []) else none)
        (fun _ => ([] : List Char))
        (JsVal.obj [(kMood, JsVal.bool true)])).1.body) kInsights)
      ("primary_emotion") = JsVal.undefined ∧
    ((aiGoals ⟨true, "m"⟩
        (fun _ => Except.ok (⟨some emptyObjText, JsVal.null⟩ : ChatResp))
        (fun s => if s = emptyObjText then some (JsVal.obj []) else none)
        (fun _ => ([] : List Char))
        (JsVal.obj [(kGoals, JsVal.arr [JsVal.str (("g").toList)])])).1
      = ⟨200, JsVal.obj [(kReflections, JsVal.arr []), (kUsage, JsVal.null)]⟩) := by
  have hjson1 : safeJsonParse (fun s => if s = emptyObjText then some (JsVal.obj []) else none)
      (contentOrEmptyObj (⟨some emptyObjText, JsVal.null⟩ : ChatResp)) (JsVal.obj [])
      = JsVal.obj [] := by
    rfl
  have hfull : (aiInsights ⟨true, "m"⟩
      (fun _ => Except.ok (⟨some emptyObjText, JsVal.null⟩ : ChatResp))
      (fun s => if s = emptyObjText then some (JsVal.obj []) else none)
      (fun _ => ([] : List Char))
      (JsVal.obj [(kMood, JsVal.bool true)])).1
      = ⟨200, JsVal.obj [(kInsights, JsVal.obj []), (kUsage, JsVal.null)]⟩ := by
    simp [aiInsights, ensureOpenAi, runJsonChat_const_ok, hjson1, jsOr, truthy, getF, sanitize]
  have hno : ¬ (∀ a ∈ clipCollection (JsVal.arr [JsVal.str (['g'] : List Char)]) 10,
      sanitize a 160 = []) := by
    intro hall
    have hmem : JsVal.str (['g'] : List Char)
        ∈ clipCollection (JsVal.arr [JsVal.str (['g'] : List Char)]) 10 := by
      rw [show clipCollection (JsVal.arr [JsVal.str (['g'] : List Char)]) 10
          = [JsVal.str (['g'] : List Char)] from rfl]
      exact List.mem_singleton.mpr rfl
    have hone := hall (JsVal.str (['g'] : List Char)) hmem
    rw [sanitize_str] at hone
    exact absurd hone (by decide)
  have hfullg : (aiGoals ⟨true, "m"⟩
      (fun _ => Except.ok (⟨some emptyObjText, JsVal.null⟩ : ChatResp))
      (fun s => if s = emptyObjText then some (JsVal.obj []) else none)
      (fun _ => ([] : List Char))
      (JsVal.obj [(kGoals, JsVal.arr [JsVal.str (("g").toList)])])).1
      = ⟨200, JsVal.obj [(kReflections, JsVal.arr []), (kUsage, JsVal.null)]⟩ := by
    simp [aiGoals, ensureOpenAi, runJsonChat_const_ok, hjson1, jsOr, truthy, getF]
    rw [if_neg hno]
  rw [hfull, hfullg]
  exact ⟨rfl, rfl, rfl⟩

/-- C5 amended: only the prompt and chat endpoints substitute their fixed
non-empty default strings when the model returns empty or absent content —
for chat, on every body whose message construction does not throw (no null
or undefined history element); the JSON-shaped endpoints carry no such
non-empty per-field fallback guarantee (insights forwards the parsed
object with an omitted field left absent, and goals substitutes an empty
array, not a non-empty value, for a missing reflections field). -/
theorem claim_c5_amended (cfg : Config) (r : ChatResp) (parse : ParseFn)
    (stringify : StrFn) (body : JsVal) (hcfg : cfg.configured = true)
    (hr : (match r.content with | some s => jsTrim s | none => []) = []) :
    ((aiPrompt cfg (fun _ => .ok r) parse stringify body).1
      = ⟨200, .obj [(kPromptKey, .str promptDefaultText), (kUsage, jsOr r.usage .null)]⟩) ∧
    promptDefaultText ≠ [] ∧
    (∀ msgs, chatMessages body = some msgs →
      (aiChat cfg (fun _ => .ok r) parse stringify body).1
        = some ⟨200, .obj [(kReply, .str chatDefaultReply), (kUsage, jsOr r.usage .null)]⟩) ∧
    chatDefaultReply ≠ [] := by
  have hg : ensureOpenAi cfg = none := by simp [ensureOpenAi, hcfg]
  refine ⟨?_, by decide, ?_, by decide⟩
  · simp [aiPrompt, hg, runChat, hcfg, hr]
  · intro msgs hm
    simp [aiChat, hg, hm, runChat, hcfg, hr]

/-- C5 amended witness: a concrete reply with no content, against a body
with no conversation (so message construction succeeds). -/
theorem claim_c5_amended_witness :
    ((aiPrompt ⟨true, "m"⟩ (fun _ => .ok (⟨none, JsVal.null⟩ : ChatResp))
        (fun _ => none) (fun _ => ([] : List Char)) (JsVal.obj [])).1
      = ⟨200, .obj [(kPromptKey, .str promptDefaultText), (kUsage, JsVal.null)]⟩) ∧
    ((aiChat ⟨true, "m"⟩ (fun _ => .ok (⟨none, JsVal.null⟩ : ChatResp))
        (fun _ => none) (fun _ => ([] : List Char)) (JsVal.obj [])).1
      = some ⟨200, .obj [(kReply, .str chatDefaultReply), (kUsage, JsVal.null)]⟩) := by
  have h := claim_c5_amended ⟨true, "m"⟩ (⟨none, JsVal.null⟩ : ChatResp)
    (fun _ => none) (fun _ => ([] : List Char)) (JsVal.obj []) rfl rfl
  exact ⟨h.1, h.2.2.1 [⟨roleSystem, chatSystemText⟩,
    ⟨roleUser, chatTopicMsgText (JsVal.obj [])⟩] rfl⟩

/-- C10 counterexample: a null conversation element makes the source read
`msg.role` on null and throw a TypeError before the try block, so message
construction fails and the handler makes no upstream call at all — the
element is neither forwarded nor dropped, refuting the claim as stated. -/
theorem claim_c10_counterexample :
    chatMessages (JsVal.obj [(kConversation, JsVal.arr [JsVal.null])]) = none ∧
    aiChat ⟨true, "m"⟩ (fun _ => Except.ok (⟨none, JsVal.null⟩ : ChatResp))
      (fun _ => none) (fun _ => ([] : List Char))
      (JsVal.obj [(kConversation, JsVal.arr [JsVal.null])])
      = (none, []) :=
  ⟨rfl, rfl⟩

/-- C10 amended: whenever the chat handler's message construction succeeds
(no history element is null or undefined — the source reads `msg.role`
with plain access), the single upstream call's message list begins with
the fixed system message, contains no other system-role message, forwards
each history element in client order with role mapped to assistant only on
an exact `assistant` role (else user), drops elements with empty sanitized
content, and appends a topic-seeded user message when the history is
empty; when construction throws instead, no upstream call is made and no
response is produced. -/
theorem claim_c10_amended (cfg : Config) (llm : Oracle) (parse : ParseFn)
    (stringify : StrFn) (body : JsVal) (h : cfg.configured = true) :
    (∀ msgs, chatMessages body = some msgs →
      ∃ c, (aiChat cfg llm parse stringify body).2 = [c] ∧
        c.messages = msgs ∧
        msgs = ⟨roleSystem, chatSystemText⟩ :: specChatTail body ∧
        msgs.head? = some ⟨roleSystem, chatSystemText⟩ ∧
        (∀ cm ∈ specChatTail body, cm.role ≠ roleSystem)) ∧
    (chatMessages body = none → aiChat cfg llm parse stringify body = (none, [])) := by
  constructor
  · intro msgs hm
    refine ⟨⟨cfg.model, 7, some 360, none, msgs⟩,
      aiChat_calls cfg llm parse stringify body msgs h hm, rfl,
      chatMessages_some body msgs hm, ?_,
      fun cm hc => specChatTail_no_system body cm hc⟩
    rw [chatMessages_some body msgs hm]
    rfl
  · intro hm
    simp [aiChat, ensureOpenAi, h, hm]

/-- C10 amended witness: a concrete conversation with one assistant
message, whose construction succeeds. -/
theorem claim_c10_amended_witness :
    ∃ c, (aiChat ⟨true, "m"⟩ (fun _ => .ok (⟨none, JsVal.null⟩ : ChatResp))
        (fun _ => none) (fun _ => ([] : List Char))
        (JsVal.obj [(kConversation, JsVal.arr [JsVal.obj [(kRole, JsVal.str (("assistant").toList)),
          (kContent, JsVal.str (("hello").toList))]])])).2 = [c] ∧
      c.messages = [⟨roleSystem, chatSystemText⟩, ⟨roleAssistant, ("hello").toList⟩] ∧
      [⟨roleSystem, chatSystemText⟩, (⟨roleAssistant, ("hello").toList⟩ : ChatMsg)]
        = ⟨roleSystem, chatSystemText⟩ :: specChatTail
          (JsVal.obj [(kConversation, JsVal.arr [JsVal.obj [(kRole, JsVal.str (("assistant").toList)),
            (kContent, JsVal.str (("hello").toList))]])]) ∧
      ([⟨roleSystem, chatSystemText⟩, (⟨roleAssistant, ("hello").toList⟩ : ChatMsg)] : List ChatMsg).head?
        = some ⟨roleSystem, chatSystemText⟩ ∧
      (∀ cm ∈ specChatTail (JsVal.obj [(kConversation, JsVal.arr
          [JsVal.obj [(kRole, JsVal.str (("assistant").toList)),
            (kContent, JsVal.str (("hello").toList))]])]), cm.role ≠ roleSystem) := by
  have hstep : chatPushStep [⟨roleSystem, chatSystemText⟩]
      (JsVal.obj [(kRole, JsVal.str (("assistant").toList)),
        (kContent, JsVal.str (("hello").toList))])
      = some [⟨roleSystem, chatSystemText⟩, ⟨roleAssistant, ("hello").toList⟩] := by
    rw [chatPushStep_eq_spec [⟨roleSystem, chatSystemText⟩]
      (JsVal.obj [(kRole, JsVal.str (("assistant").toList)),
        (kContent, JsVal.str (("hello").toList))]) rfl]
    unfold specHistMsg
    rw [show jsOr (getF (JsVal.obj [(kRole, JsVal.str (("assistant").toList)),
        (kContent, JsVal.str (("hello").toList))]) kContent)
        (jsOr (getF (JsVal.obj [(kRole, JsVal.str (("assistant").toList)),
          (kContent, JsVal.str (("hello").toList))]) kText) (JsVal.str []))
        = JsVal.str (("hello").toList) from rfl, sanitize_str]
    decide
  have hm : chatMessages (JsVal.obj [(kConversation, JsVal.arr
      [JsVal.obj [(kRole, JsVal.str (("assistant").toList)),
        (kContent, JsVal.str (("hello").toList))]])])
      = some [⟨roleSystem, chatSystemText⟩, ⟨roleAssistant, ("hello").toList⟩] := by
    show chatPushLoop [⟨roleSystem, chatSystemText⟩]
      [JsVal.obj [(kRole, JsVal.str (("assistant").toList)),
        (kContent, JsVal.str (("hello").toList))]]
      = some [⟨roleSystem, chatSystemText⟩, ⟨roleAssistant, ("hello").toList⟩]
    unfold chatPushLoop
    rw [hstep]
    rfl
  exact (claim_c10_amended ⟨true, "m"⟩ (fun _ => .ok (⟨none, JsVal.null⟩ : ChatResp))
    (fun _ => none) (fun _ => ([] : List Char))
    (JsVal.obj [(kConversation, JsVal.arr [JsVal.obj [(kRole, JsVal.str (("assistant").toList)),
      (kContent, JsVal.str (("hello").toList))]])]) rfl).1
    [⟨roleSystem, chatSystemText⟩, ⟨roleAssistant, ("hello").toList⟩] hm

/-- C2: for each AI operation, a request body failing its required-input
check yields exactly a 400 response whose body carries the operation's
fixed non-empty validation message naming the missing input, and no
upstream LLM call is made (the call trace is empty). -/
theorem claim_c2_validation (cfg : Config) (llm : Oracle) (parse : ParseFn)
    (stringify : StrFn) (body : JsVal) (hcfg : cfg.configured = true) :
    (sanitize (getF body kEntry) 800 = [] → truthy (getF body kMood) = false →
      truthy (getF body kStats) = false →
      aiInsights cfg llm parse stringify body
        = (⟨400, .obj [(kError, .str insightsValidationMsg)]⟩, []) ∧
      insightsValidationMsg ≠ []) ∧
    (normalizeEntries (getF body kEntries) 20 = [] →
      normalizeMoods (getF body kMoods) 20 = [] →
      truthy (getF body kStats) = false →
      aiSummary cfg llm parse stringify body
        = (⟨400, .obj [(kError, .str summaryValidationMsg)]⟩, []) ∧
      summaryValidationMsg ≠ []) ∧
    (((clipCollection (getF body kGoals) 10).map (fun g => sanitize g 160)).filter
        (fun s => !s.isEmpty) = [] →
      aiGoals cfg llm parse stringify body
        = (⟨400, .obj [(kError, .str goalsValidationMsg)]⟩, []) ∧
      goalsValidationMsg ≠ []) ∧
    (normalizeEntries (getF body kEntries) 30 = [] →
      normalizeMoods (getF body kMoods) 30 = [] →
      aiAnomaly cfg llm parse stringify body
        = (⟨400, .obj [(kError, .str anomalyValidationMsg)]⟩, []) ∧
      anomalyValidationMsg ≠ []) ∧
    (normalizeEntries (getF body kEntries) 40 = [] →
      aiPatternMap cfg llm parse stringify body
        = (⟨400, .obj [(kError, .str patternValidationMsg)]⟩, []) ∧
      patternValidationMsg ≠ []) ∧
    (sanitize (getF body kVoiceNote) 1800 = [] →
      sanitize (getF body kVoiceNoteText) 1800 = [] →
      sanitize (getF body kNote) 1800 = [] →
      aiTranscript cfg llm parse stringify body
        = (⟨400, .obj [(kError, .str transcriptValidationMsg)]⟩, []) ∧
      transcriptValidationMsg ≠ []) ∧
    (truthy (getF body kInsights) = false → truthy (getF body kSummary) = false →
      aiPartner cfg llm parse stringify body
        = (⟨400, .obj [(kError, .str partnerValidationMsg)]⟩, []) ∧
      partnerValidationMsg ≠ []) := by
  have hg : ensureOpenAi cfg = none := by simp [ensureOpenAi, hcfg]
  refine ⟨?_, ?_, ?_, ?_, ?_, ?_, ?_⟩
  · intro h1 h2 h3
    refine ⟨?_, by decide⟩
    simp [aiInsights, hg, truthy_jsOr_null, h1, h2, h3]
  · intro h1 h2 h3
    refine ⟨?_, by decide⟩
    simp [aiSummary, hg, truthy_jsOr_null, h1, h2, h3]
  · intro h1
    refine ⟨?_, by decide⟩
    simp [aiGoals, hg, h1]
  · intro h1 h2
    refine ⟨?_, by decide⟩
    simp [aiAnomaly, hg, h1, h2]
  · intro h1
    refine ⟨?_, by decide⟩
    simp [aiPatternMap, hg, h1]
  · intro h1 h2 h3
    refine ⟨?_, by decide⟩
    simp [aiTranscript, hg, h1, h2, h3]
  · intro h1 h2
    refine ⟨?_, by decide⟩
    simp [aiPartner, hg, truthy_jsOr_null, h1, h2]

/-- C2 witness: the empty request body fails every validation. -/
theorem claim_c2_witness :
    aiInsights ⟨true, "m"⟩ (fun _ => Except.error ⟨[], none, none⟩) (fun _ => none)
      (fun _ => ([] : List Char)) (JsVal.obj [])
      = (⟨400, .obj [(kError, .str insightsValidationMsg)]⟩, []) ∧
    aiSummary ⟨true, "m"⟩ (fun _ => Except.error ⟨[], none, none⟩) (fun _ => none)
      (fun _ => ([] : List Char)) (JsVal.obj [])
      = (⟨400, .obj [(kError, .str summaryValidationMsg)]⟩, []) ∧
    aiGoals ⟨true, "m"⟩ (fun _ => Except.error ⟨[], none, none⟩) (fun _ => none)
      (fun _ => ([] : List Char)) (JsVal.obj [])
      = (⟨400, .obj [(kError, .str goalsValidationMsg)]⟩, []) ∧
    aiAnomaly ⟨true, "m"⟩ (fun _ => Except.error ⟨[], none, none⟩) (fun _ => none)
      (fun _ => ([] : List Char)) (JsVal.obj [])
      = (⟨400, .obj [(kError, .str anomalyValidationMsg)]⟩, []) ∧
    aiPatternMap ⟨true, "m"⟩ (fun _ => Except.error ⟨[], none, none⟩) (fun _ => none)
      (fun _ => ([] : List Char)) (JsVal.obj [])
      = (⟨400, .obj [(kError, .str patternValidationMsg)]⟩, []) ∧
    aiTranscript ⟨true, "m"⟩ (fun _ => Except.error ⟨[], none, none⟩) (fun _ => none)
      (fun _ => ([] : List Char)) (JsVal.obj [])
      = (⟨400, .obj [(kError, .str transcriptValidationMsg)]⟩, []) ∧
    aiPartner ⟨true, "m"⟩ (fun _ => Except.error ⟨[], none, none⟩) (fun _ => none)
      (fun _ => ([] : List Char)) (JsVal.obj [])
      = (⟨400, .obj [(kError, .str partnerValidationMsg)]⟩, []) := by
  obtain ⟨i1, i2, i3, i4, i5, i6, i7⟩ := claim_c2_validation ⟨true, "m"⟩
    (fun _ => Except.error ⟨[], none, none⟩) (fun _ => none)
    (fun _ => ([] : List Char)) (JsVal.obj []) rfl
  exact ⟨(i1 rfl rfl rfl).1, (i2 rfl rfl rfl).1, (i3 rfl).1, (i4 rfl rfl).1,
    (i5 rfl).1, (i6 rfl rfl rfl).1, (i7 rfl rfl).1⟩

/-- C3 amended: when the upstream LLM call fails with an error carrying
positive numeric status fields when present, every AI handler that reaches
the call responds with the upstream's status code when one was supplied
(`status` first, else `statusCode`), else 502, and with the upstream's
message when non-empty, else the operation's fixed non-empty fallback
string; for the chat endpoint this holds on every body whose message
construction does not throw (no null or undefined history element) — a
null element instead raises a TypeError before the try block that escapes
the handler with no LLM call and no response. -/
theorem claim_c3_upstream (cfg : Config) (parse : ParseFn) (stringify : StrFn)
    (body : JsVal) (e : JsErr) (hcfg : cfg.configured = true)
    (h1 : ∀ k, e.status = some k → 0 < k) (h2 : ∀ k, e.statusCode = some k → 0 < k) :
    (((sanitize (getF body kEntry) 800).isEmpty && !truthy (jsOr (getF body kMood) JsVal.null)
        && !truthy (jsOr (getF body kStats) JsVal.null)) = false →
      (aiInsights cfg (fun _ => Except.error e) parse stringify body).1
        = ⟨claimStatus e, .obj [(kError, .str (if e.message.isEmpty then insightsFallbackMsg
            else e.message))]⟩) ∧
    ((aiPrompt cfg (fun _ => Except.error e) parse stringify body).1
        = ⟨claimStatus e, .obj [(kError, .str (if e.message.isEmpty then promptFallbackMsg
            else e.message))]⟩) ∧
    (((normalizeEntries (getF body kEntries) 20).isEmpty
        && (normalizeMoods (getF body kMoods) 20).isEmpty
        && !truthy (jsOr (getF body kStats) JsVal.null)) = false →
      (aiSummary cfg (fun _ => Except.error e) parse stringify body).1
        = ⟨claimStatus e, .obj [(kError, .str (if e.message.isEmpty then summaryFallbackMsg
            else e.message))]⟩) ∧
    ((((clipCollection (getF body kGoals) 10).map (fun g => sanitize g 160)).filter
        (fun s => !s.isEmpty)).isEmpty = false →
      (aiGoals cfg (fun _ => Except.error e) parse stringify body).1
        = ⟨claimStatus e, .obj [(kError, .str (if e.message.isEmpty then goalsFallbackMsg
            else e.message))]⟩) ∧
    (((normalizeEntries (getF body kEntries) 30).isEmpty
        && (normalizeMoods (getF body kMoods) 30).isEmpty) = false →
      (aiAnomaly cfg (fun _ => Except.error e) parse stringify body).1
        = ⟨claimStatus e, .obj [(kError, .str (if e.message.isEmpty then anomalyFallbackMsg
            else e.message))]⟩) ∧
    ((normalizeEntries (getF body kEntries) 40).isEmpty = false →
      (aiPatternMap cfg (fun _ => Except.error e) parse stringify body).1
        = ⟨claimStatus e, .obj [(kError, .str (if e.message.isEmpty then patternFallbackMsg
            else e.message))]⟩) ∧
    ((if (sanitize (getF body kVoiceNote) 1800).isEmpty then
        (if (sanitize (getF body kVoiceNoteText) 1800).isEmpty then
          sanitize (getF body kNote) 1800
         else sanitize (getF body kVoiceNoteText) 1800)
      else sanitize (getF body kVoiceNote) 1800).isEmpty = false →
      (aiTranscript cfg (fun _ => Except.error e) parse stringify body).1
        = ⟨claimStatus e, .obj [(kError, .str (if e.message.isEmpty then transcriptFallbackMsg
            else e.message))]⟩) ∧
    ((!truthy (jsOr (getF body kInsights) JsVal.null)
        && !truthy (jsOr (getF body kSummary) JsVal.null)) = false →
      (aiPartner cfg (fun _ => Except.error e) parse stringify body).1
        = ⟨claimStatus e, .obj [(kError, .str (if e.message.isEmpty then partnerFallbackMsg
            else e.message))]⟩) ∧
    (∀ msgs, chatMessages body = some msgs →
      (aiChat cfg (fun _ => Except.error e) parse stringify body).1
        = some ⟨claimStatus e, .obj [(kError, .str (if e.message.isEmpty then chatFallbackMsg
            else e.message))]⟩) ∧
    insightsFallbackMsg ≠ [] ∧ promptFallbackMsg ≠ [] ∧ summaryFallbackMsg ≠ [] ∧
    goalsFallbackMsg ≠ [] ∧ anomalyFallbackMsg ≠ [] ∧ patternFallbackMsg ≠ [] ∧
    transcriptFallbackMsg ≠ [] ∧ partnerFallbackMsg ≠ [] ∧ chatFallbackMsg ≠ [] := by
  have hg : ensureOpenAi cfg = none := by simp [ensureOpenAi, hcfg]
  have hst := errStatus_eq_claim e h1 h2
  refine ⟨?_, ?_, ?_, ?_, ?_, ?_, ?_, ?_, ?_, by decide, by decide, by decide, by decide,
    by decide, by decide, by decide, by decide, by decide⟩
  · intro hv
    simp only [aiInsights, hg]
    rw [hv]
    simp [runJsonChat_const_error, hcfg, catchResp, errMessageOr, hst]
  · simp only [aiPrompt, hg]
    simp [runChat_const_error, hcfg, catchResp, errMessageOr, hst]
  · intro hv
    simp only [aiSummary, hg]
    rw [hv]
    simp [runJsonChat_const_error, hcfg, catchResp, errMessageOr, hst]
  · intro hv
    simp only [aiGoals, hg]
    rw [hv]
    simp [runJsonChat_const_error, hcfg, catchResp, errMessageOr, hst]
  · intro hv
    simp only [aiAnomaly, hg]
    rw [hv]
    simp [runJsonChat_const_error, hcfg, catchResp, errMessageOr, hst]
  · intro hv
    simp only [aiPatternMap, hg]
    rw [hv]
    simp [runJsonChat_const_error, hcfg, catchResp, errMessageOr, hst]
  · intro hv
    simp only [aiTranscript, hg]
    rw [hv]
    simp [runJsonChat_const_error, hcfg, catchResp, errMessageOr, hst]
  · intro hv
    simp only [aiPartner, hg]
    rw [hv]
    simp [runJsonChat_const_error, hcfg, catchResp, errMessageOr, hst]
  · intro msgs hm
    simp only [aiChat, hg, hm]
    simp [runChat_const_error, hcfg, catchResp, errMessageOr, hst]

/-- C3 counterexample: at a body whose conversation contains a null
element, the chat handler throws a TypeError reading `msg.role` before the
try block: no response is sent and no upstream call is made, so the
claimed error-mapped response is not produced and the error leaves the
handler unhandled. -/
theorem claim_c3_counterexample :
    aiChat ⟨true, "m"⟩ (fun _ => Except.error (⟨("boom").toList, some 500, none⟩ : JsErr))
      (fun _ => none) (fun _ => ([] : List Char))
      (JsVal.obj [(kConversation, JsVal.arr [JsVal.null])])
      = (none, []) ∧
    (none : Option HttpResp) ≠ some ⟨500, JsVal.obj [(kError, JsVal.str (("boom").toList))]⟩ := by
  refine ⟨rfl, ?_⟩
  intro h
  exact Option.noConfusion h

/-- C3 witness: a concrete upstream error with status 500 and message
`boom`, against a body passing every validation. -/
theorem claim_c3_witness :
    ((aiInsights ⟨true, "m"⟩ (fun _ => Except.error (⟨("boom").toList, some 500, none⟩ : JsErr))
        (fun _ => none) (fun _ => ([] : List Char)) (JsVal.obj [(kStats, JsVal.bool true),
      (kGoals, JsVal.arr [JsVal.str (("g").toList)]),
      (kMoods, JsVal.arr [JsVal.obj []]),
      (kEntries, JsVal.arr [JsVal.obj []]),
      (kNote, JsVal.str (("n").toList)),
      (kInsights, JsVal.bool true)])).1
      = ⟨500, JsVal.obj [(kError, JsVal.str (("boom").toList))]⟩) ∧
    ((aiPrompt ⟨true, "m"⟩ (fun _ => Except.error (⟨("boom").toList, some 500, none⟩ : JsErr))
        (fun _ => none) (fun _ => ([] : List Char)) (JsVal.obj [(kStats, JsVal.bool true),
      (kGoals, JsVal.arr [JsVal.str (("g").toList)]),
      (kMoods, JsVal.arr [JsVal.obj []]),
      (kEntries, JsVal.arr [JsVal.obj []]),
      (kNote, JsVal.str (("n").toList)),
      (kInsights, JsVal.bool true)])).1
      = ⟨500, JsVal.obj [(kError, JsVal.str (("boom").toList))]⟩) ∧
    ((aiSummary ⟨true, "m"⟩ (fun _ => Except.error (⟨("boom").toList, some 500, none⟩ : JsErr))
        (fun _ => none) (fun _ => ([] : List Char)) (JsVal.obj [(kStats, JsVal.bool true),
      (kGoals, JsVal.arr [JsVal.str (("g").toList)]),
      (kMoods, JsVal.arr [JsVal.obj []]),
      (kEntries, JsVal.arr [JsVal.obj []]),
      (kNote, JsVal.str (("n").toList)),
      (kInsights, JsVal.bool true)])).1
      = ⟨500, JsVal.obj [(kError, JsVal.str (("boom").toList))]⟩) ∧
    ((aiGoals ⟨true, "m"⟩ (fun _ => Except.error (⟨("boom").toList, some 500, none⟩ : JsErr))
        (fun _ => none) (fun _ => ([] : List Char)) (JsVal.obj [(kStats, JsVal.bool true),
      (kGoals, JsVal.arr [JsVal.str (("g").toList)]),
      (kMoods, JsVal.arr [JsVal.obj []]),
      (kEntries, JsVal.arr [JsVal.obj []]),
      (kNote, JsVal.str (("n").toList)),
      (kInsights, JsVal.bool true)])).1
      = ⟨500, JsVal.obj [(kError, JsVal.str (("boom").toList))]⟩) ∧
    ((aiAnomaly ⟨true, "m"⟩ (fun _ => Except.error (⟨("boom").toList, some 500, none⟩ : JsErr))
        (fun _ => none) (fun _ => ([] : List Char)) (JsVal.obj [(kStats, JsVal.bool true),
      (kGoals, JsVal.arr [JsVal.str (("g").toList)]),
      (kMoods, JsVal.arr [JsVal.obj []]),
      (kEntries, JsVal.arr [JsVal.obj []]),
      (kNote, JsVal.str (("n").toList)),
      (kInsights, JsVal.bool true)])).1
      = ⟨500, JsVal.obj [(kError, JsVal.str (("boom").toList))]⟩) ∧
    ((aiPatternMap ⟨true, "m"⟩ (fun _ => Except.error (⟨("boom").toList, some 500, none⟩ : JsErr))
        (fun _ => none) (fun _ => ([] : List Char)) (JsVal.obj [(kStats, JsVal.bool true),
      (kGoals, JsVal.arr [JsVal.str (("g").toList)]),
      (kMoods, JsVal.arr [JsVal.obj []]),
      (kEntries, JsVal.arr [JsVal.obj []]),
      (kNote, JsVal.str (("n").toList)),
      (kInsights, JsVal.bool true)])).1
      = ⟨500, JsVal.obj [(kError, JsVal.str (("boom").toList))]⟩) ∧
    ((aiTranscript ⟨true, "m"⟩ (fun _ => Except.error (⟨("boom").toList, some 500, none⟩ : JsErr))
        (fun _ => none) (fun _ => ([] : List Char)) (JsVal.obj [(kStats, JsVal.bool true),
      (kGoals, JsVal.arr [JsVal.str (("g").toList)]),
      (kMoods, JsVal.arr [JsVal.obj []]),
      (kEntries, JsVal.arr [JsVal.obj []]),
      (kNote, JsVal.str (("n").toList)),
      (kInsights, JsVal.bool true)])).1
      = ⟨500, JsVal.obj [(kError, JsVal.str (("boom").toList))]⟩) ∧
    ((aiPartner ⟨true, "m"⟩ (fun _ => Except.error (⟨("boom").toList, some 500, none⟩ : JsErr))
        (fun _ => none) (fun _ => ([] : List Char)) (JsVal.obj [(kStats, JsVal.bool true),
      (kGoals, JsVal.arr [JsVal.str (("g").toList)]),
      (kMoods, JsVal.arr [JsVal.obj []]),
      (kEntries, JsVal.arr [JsVal.obj []]),
      (kNote, JsVal.str (("n").toList)),
      (kInsights, JsVal.bool true)])).1
      = ⟨500, JsVal.obj [(kError, JsVal.str (("boom").toList))]⟩) ∧
    ((aiChat ⟨true, "m"⟩ (fun _ => Except.error (⟨("boom").toList, some 500, none⟩ : JsErr))
        (fun _ => none) (fun _ => ([] : List Char)) (JsVal.obj [(kStats, JsVal.bool true),
      (kGoals, JsVal.arr [JsVal.str (("g").toList)]),
      (kMoods, JsVal.arr [JsVal.obj []]),
      (kEntries, JsVal.arr [JsVal.obj []]),
      (kNote, JsVal.str (("n").toList)),
      (kInsights, JsVal.bool true)])).1
      = some ⟨500, JsVal.obj [(kError, JsVal.str (("boom").toList))]⟩) := by
  have hv4 : ((((clipCollection (getF (JsVal.obj [(kStats, JsVal.bool true),
      (kGoals, JsVal.arr [JsVal.str (("g").toList)]),
      (kMoods, JsVal.arr [JsVal.obj []]),
      (kEntries, JsVal.arr [JsVal.obj []]),
      (kNote, JsVal.str (("n").toList)),
      (kInsights, JsVal.bool true)]) kGoals) 10).map (fun g => sanitize g 160)).filter
      (fun s => !s.isEmpty)).isEmpty = false) := by
    rw [show (clipCollection (getF (JsVal.obj [(kStats, JsVal.bool true),
      (kGoals, JsVal.arr [JsVal.str (("g").toList)]),
      (kMoods, JsVal.arr [JsVal.obj []]),
      (kEntries, JsVal.arr [JsVal.obj []]),
      (kNote, JsVal.str (("n").toList)),
      (kInsights, JsVal.bool true)]) kGoals) 10).map (fun g => sanitize g 160)
        = [sanitize (JsVal.str (("g").toList)) 160] from rfl, sanitize_str]
    decide
  have hv7 : ((if (sanitize (getF (JsVal.obj [(kStats, JsVal.bool true),
      (kGoals, JsVal.arr [JsVal.str (("g").toList)]),
      (kMoods, JsVal.arr [JsVal.obj []]),
      (kEntries, JsVal.arr [JsVal.obj []]),
      (kNote, JsVal.str (("n").toList)),
      (kInsights, JsVal.bool true)]) kVoiceNote) 1800).isEmpty then
        (if (sanitize (getF (JsVal.obj [(kStats, JsVal.bool true),
      (kGoals, JsVal.arr [JsVal.str (("g").toList)]),
      (kMoods, JsVal.arr [JsVal.obj []]),
      (kEntries, JsVal.arr [JsVal.obj []]),
      (kNote, JsVal.str (("n").toList)),
      (kInsights, JsVal.bool true)]) kVoiceNoteText) 1800).isEmpty then
          sanitize (getF (JsVal.obj [(kStats, JsVal.bool true),
      (kGoals, JsVal.arr [JsVal.str (("g").toList)]),
      (kMoods, JsVal.arr [JsVal.obj []]),
      (kEntries, JsVal.arr [JsVal.obj []]),
      (kNote, JsVal.str (("n").toList)),
      (kInsights, JsVal.bool true)]) kNote) 1800
         else sanitize (getF (JsVal.obj [(kStats, JsVal.bool true),
      (kGoals, JsVal.arr [JsVal.str (("g").toList)]),
      (kMoods, JsVal.arr [JsVal.obj []]),
      (kEntries, JsVal.arr [JsVal.obj []]),
      (kNote, JsVal.str (("n").toList)),
      (kInsights, JsVal.bool true)]) kVoiceNoteText) 1800)
      else sanitize (getF (JsVal.obj [(kStats, JsVal.bool true),
      (kGoals, JsVal.arr [JsVal.str (("g").toList)]),
      (kMoods, JsVal.arr [JsVal.obj []]),
      (kEntries, JsVal.arr [JsVal.obj []]),
      (kNote, JsVal.str (("n").toList)),
      (kInsights, JsVal.bool true)]) kVoiceNote) 1800).isEmpty = false) := by
    rw [show sanitize (getF (JsVal.obj [(kStats, JsVal.bool true),
      (kGoals, JsVal.arr [JsVal.str (("g").toList)]),
      (kMoods, JsVal.arr [JsVal.obj []]),
      (kEntries, JsVal.arr [JsVal.obj []]),
      (kNote, JsVal.str (("n").toList)),
      (kInsights, JsVal.bool true)]) kVoiceNote) 1800 = ([] : List Char) from rfl,
        show sanitize (getF (JsVal.obj [(kStats, JsVal.bool true),
      (kGoals, JsVal.arr [JsVal.str (("g").toList)]),
      (kMoods, JsVal.arr [JsVal.obj []]),
      (kEntries, JsVal.arr [JsVal.obj []]),
      (kNote, JsVal.str (("n").toList)),
      (kInsights, JsVal.bool true)]) kVoiceNoteText) 1800 = ([] : List Char) from rfl,
        show getF (JsVal.obj [(kStats, JsVal.bool true),
      (kGoals, JsVal.arr [JsVal.str (("g").toList)]),
      (kMoods, JsVal.arr [JsVal.obj []]),
      (kEntries, JsVal.arr [JsVal.obj []]),
      (kNote, JsVal.str (("n").toList)),
      (kInsights, JsVal.bool true)]) kNote = JsVal.str (("n").toList) from rfl, sanitize_str]
    decide
  obtain ⟨i1, i2, i3, i4, i5, i6, i7, i8, i9, _⟩ := claim_c3_upstream ⟨true, "m"⟩
    (fun _ => none) (fun _ => ([] : List Char)) (JsVal.obj [(kStats, JsVal.bool true),
      (kGoals, JsVal.arr [JsVal.str (("g").toList)]),
      (kMoods, JsVal.arr [JsVal.obj []]),
      (kEntries, JsVal.arr [JsVal.obj []]),
      (kNote, JsVal.str (("n").toList)),
      (kInsights, JsVal.bool true)]) (⟨("boom").toList, some 500, none⟩ : JsErr) rfl
    (fun k hk => by injection hk with h; rw [← h]; decide)
    (fun k hk => by cases hk)
  exact ⟨i1 rfl, i2, i3 rfl, i4 hv4, i5 rfl, i6 rfl, i7 hv7, i8 rfl,
    i9 [⟨roleSystem, chatSystemText⟩, ⟨roleUser, chatTopicMsgText (JsVal.obj [(kStats, JsVal.bool true),
      (kGoals, JsVal.arr [JsVal.str (("g").toList)]),
      (kMoods, JsVal.arr [JsVal.obj []]),
      (kEntries, JsVal.arr [JsVal.obj []]),
      (kNote, JsVal.str (("n").toList)),
      (kInsights, JsVal.bool true)])⟩] rfl⟩
